import Mathlib

/-!
Verification of the tudat astrodynamics core against its specification.

Two subsystems are embedded here, following the repository sources:

* the Keplerian <-> Unified-State-Model-with-Exponential-Map (USMEM) element
  conversions of `Tudat/Astrodynamics/BasicAstrodynamics`; the conversion
  implementations themselves are not part of the provided sources (only their
  unit test is), so those definitions are modelled from the spec, anchored to
  the expected values asserted in
  `unitTestUnifiedStateModelWithExponentialMapElementConversions.cpp`;

* the polyhedron gravity field of
  `include/tudat/astro/gravitation/polyhedronGravityField.h`; the header (class
  layout, constructors, evaluator orchestration) is in the sources, while the
  bodies of the free `calculatePolyhedron...` functions and of
  `PolyhedronGravityCache::update` are not, so those are modelled from the spec
  (Werner and Scheeres 1997 equation references).

Real numbers stand in for C++ doubles; the NaN sentinel stored by the cache
constructor is modelled by an explicit scalar type with a NaN constructor.
-/

open Real

/-! ## Small vector and matrix algebra (stand-in for Eigen types) -/

/-- A 3-vector of reals, standing in for `Eigen::Vector3d`. -/
structure Vec3 where
  x : ℝ
  y : ℝ
  z : ℝ


/-- Componentwise subtraction of 3-vectors. -/
def Vec3.sub (a b : Vec3) : Vec3 := ⟨a.x - b.x, a.y - b.y, a.z - b.z⟩

/-- Dot product of 3-vectors. -/
def Vec3.dot (a b : Vec3) : ℝ := a.x * b.x + a.y * b.y + a.z * b.z

/-- Cross product of 3-vectors. -/
def Vec3.cross (a b : Vec3) : Vec3 :=
  ⟨a.y * b.z - a.z * b.y, a.z * b.x - a.x * b.z, a.x * b.y - a.y * b.x⟩

/-- Euclidean norm of a 3-vector. -/
noncomputable def Vec3.norm (a : Vec3) : ℝ := Real.sqrt (a.dot a)

/-- A 3x3 matrix given by its rows, standing in for `Eigen::Matrix3d`. -/
structure Mat3 where
  r1 : Vec3
  r2 : Vec3
  r3 : Vec3

/-- Matrix-vector product. -/
def Mat3.mulVec (m : Mat3) (v : Vec3) : Vec3 := ⟨m.r1.dot v, m.r2.dot v, m.r3.dot v⟩

/-- Quadratic form `v . (M v)` of a matrix, used to contract a dyad with a
relative position. -/
def Mat3.quadForm (m : Mat3) (v : Vec3) : ℝ := v.dot (m.mulVec v)

/-- Two-argument arctangent in the convention of the C library `atan2`,
modelled as the complex argument of `x + y i` (range `(-pi, pi]`). -/
noncomputable def atan2m (y x : ℝ) : ℝ := Complex.arg ⟨x, y⟩

/-- Reduction of an angle into `[0, 2 pi)`. -/
noncomputable def wrapTwoPi (a : ℝ) : ℝ := a - 2 * π * ⌊a / (2 * π)⌋

/-- A real scalar that can also hold the IEEE NaN marker; used only for the
body-fixed position stored inside the polyhedron cache, which the C++
constructor seeds with `TUDAT_NAN`. -/
inductive RD where
  | nan : RD
  | fin : ℝ → RD


/-! ## Keplerian and USMEM element sets

The element structures mirror `Eigen::Vector6d` with the index conventions of
`stateVectorIndices.h`: the first Keplerian slot holds the semi-major axis, or
the semi-latus rectum when the eccentricity equals one (the C++ enum aliases
`semiLatusRectumIndex` to the same slot). -/

/-- Keplerian element set (semi-major axis slot doubling as semi-latus rectum
for parabolic orbits, eccentricity, inclination, argument of periapsis,
longitude of ascending node, true anomaly). -/
structure KeplerianElements where
  semiMajorAxis : ℝ
  eccentricity : ℝ
  inclination : ℝ
  argumentOfPeriapsis : ℝ
  longitudeOfAscendingNode : ℝ
  trueAnomaly : ℝ


/-- Unified-State-Model-with-Exponential-Map element set: three hodograph
components and three exponential-map components. -/
structure USMEMElements where
  CHodograph : ℝ
  Rf1Hodograph : ℝ
  Rf2Hodograph : ℝ
  e1 : ℝ
  e2 : ℝ
  e3 : ℝ


/-- Modelled from the spec: `convertKeplerianToUnifiedStateModelWithExponentialMapElements`
(the implementation file is absent from the provided sources; only its unit
test is present).  Degenerate-geometry checks follow section 4.1 of the spec:
inclination outside `[0, pi]`, zero eccentricity with non-zero argument of
periapsis, and zero inclination with non-zero longitude of ascending node are
rejected with a runtime error.  The hodograph components follow the vis-viva
relation (`C = sqrt(mu / (a (1 - e^2)))`, with the semi-latus rectum used at
`e = 1`) and orbital-plane geometry; the exponential-map components are
anchored to the expected values of the unit test
(`unitTestUnifiedStateModelWithExponentialMapElementConversions.cpp`), which
pin them to `(sin(i/2) cos((W-u)/2), sin(i/2) sin((W-u)/2), cos(i/2) sin((W+u)/2))`
for `u` the argument of latitude and `W` the longitude of ascending node.
This definition is the `C` hodograph component: the vis-viva velocity scale,
with the semi-latus rectum slot used for parabolic orbits. -/
noncomputable def kepCHodograph (k : KeplerianElements) (mu : ℝ) : ℝ :=
  if k.eccentricity = 1 then Real.sqrt (mu / k.semiMajorAxis)
  else Real.sqrt (mu / (k.semiMajorAxis * (1 - k.eccentricity ^ 2)))

/-- The non-error payload of the Keplerian-to-USMEM conversion (the value
built in the success branch of
`convertKeplerianToUnifiedStateModelWithExponentialMapElements`). -/
noncomputable def kepToUsmemPayload (k : KeplerianElements) (mu : ℝ) : USMEMElements :=
  let C : ℝ := kepCHodograph k mu
  let R : ℝ := k.eccentricity * C
  let argLat : ℝ := k.argumentOfPeriapsis + k.trueAnomaly
  { CHodograph := C
    Rf1Hodograph :=
      -R * Real.sin (k.longitudeOfAscendingNode + k.argumentOfPeriapsis)
    Rf2Hodograph :=
      R * Real.cos (k.longitudeOfAscendingNode + k.argumentOfPeriapsis)
    e1 := Real.sin (k.inclination / 2) *
      Real.cos ((k.longitudeOfAscendingNode - argLat) / 2)
    e2 := Real.sin (k.inclination / 2) *
      Real.sin ((k.longitudeOfAscendingNode - argLat) / 2)
    e3 := Real.cos (k.inclination / 2) *
      Real.sin ((k.longitudeOfAscendingNode + argLat) / 2) }

noncomputable def convertKeplerianToUnifiedStateModelWithExponentialMapElements
    (k : KeplerianElements) (mu : ℝ) : Except String USMEMElements :=
  if k.inclination < 0 ∨ π < k.inclination then
    .error "Inclination is outside of the range zero to pi"
  else if k.eccentricity = 0 ∧ k.argumentOfPeriapsis ≠ 0 then
    .error "Degenerate geometry: undefined argument of periapsis"
  else if k.inclination = 0 ∧ k.longitudeOfAscendingNode ≠ 0 then
    .error "Degenerate geometry: undefined longitude of ascending node"
  else
    .ok (kepToUsmemPayload k mu)

/-- Modelled from the spec: `convertUnifiedStateModelWithExponentialMapToKeplerianElements`
(implementation absent from the provided sources).  The spec only fixes its
signature, the round-trip property and that the retrograde-equatorial boundary
(inclination pi, where the stored exponential-map data degenerates) raises a
runtime error, as exercised by case 6 of the round-trip unit test.  Shape
elements are recovered from the hodograph components via the vis-viva
relation; angles via two-argument arctangents with results reduced into
`[0, 2 pi)`, taking the non-negative branch for the quaternion scalar.
This definition is the eccentricity recovered from the hodograph components. -/
noncomputable def usmemEccentricity (u : USMEMElements) : ℝ :=
  Real.sqrt (u.Rf1Hodograph ^ 2 + u.Rf2Hodograph ^ 2) / u.CHodograph

/-- The non-error payload of the USMEM-to-Keplerian conversion (the value
built in the success branch of
`convertUnifiedStateModelWithExponentialMapToKeplerianElements`). -/
noncomputable def usmemToKepPayload (u : USMEMElements) (mu : ℝ) : KeplerianElements :=
  let C : ℝ := u.CHodograph
  let ecc : ℝ := usmemEccentricity u
  let sinHalfISq : ℝ := u.e1 ^ 2 + u.e2 ^ 2
  let incl : ℝ := 2 * Real.arcsin (Real.sqrt sinHalfISq)
  let slot0 : ℝ := if ecc = 1 then mu / C ^ 2 else mu / (C ^ 2 * (1 - ecc ^ 2))
  let etaPlus : ℝ := Real.sqrt (1 - sinHalfISq - u.e3 ^ 2)
  let halfLambda : ℝ := atan2m u.e3 etaPlus
  let beta : ℝ := atan2m u.e2 u.e1
  let sumAngle : ℝ := atan2m (-u.Rf1Hodograph) u.Rf2Hodograph
  let raan : ℝ := wrapTwoPi (halfLambda + beta)
  { semiMajorAxis := slot0
    eccentricity := ecc
    inclination := incl
    argumentOfPeriapsis := wrapTwoPi (sumAngle - raan)
    longitudeOfAscendingNode := raan
    trueAnomaly := wrapTwoPi (2 * halfLambda - sumAngle) }

noncomputable def convertUnifiedStateModelWithExponentialMapToKeplerianElements
    (u : USMEMElements) (mu : ℝ) : Except String KeplerianElements :=
  if 1 ≤ u.e1 ^ 2 + u.e2 ^ 2 then
    .error "Pure-retrograde orbit: exponential map is singular"
  else
    .ok (usmemToKepPayload u mu)

/-- Validity of a Keplerian element set in the sense of claim C1: positive
gravitational parameter, non-negative eccentricity, inclination in `[0, pi)`,
the degenerate-angle conventions, and the orbit-class sign condition making
the vis-viva radicand positive (elliptical, hyperbolic or parabolic). -/
def keplerianValid (k : KeplerianElements) (mu : ℝ) : Prop :=
  0 < mu ∧ 0 ≤ k.eccentricity ∧ 0 ≤ k.inclination ∧ k.inclination < π ∧
    (k.eccentricity = 0 → k.argumentOfPeriapsis = 0) ∧
    (k.inclination = 0 → k.longitudeOfAscendingNode = 0) ∧
    (k.eccentricity = 1 → 0 < k.semiMajorAxis) ∧
    (k.eccentricity ≠ 1 → 0 < k.semiMajorAxis * (1 - k.eccentricity ^ 2))

/-- Scalar comparison at relative tolerance `1e-14`, with the additive-offset
variant (add one to both sides first) that the unit test applies to near-zero
components. -/
def closeRel (xv yv : ℝ) : Prop :=
  |xv - yv| ≤ 1e-14 * |yv| ∨ |xv - yv| ≤ 1e-14 * |yv + 1|

/-- Componentwise comparison of Keplerian element sets at relative tolerance
`1e-14` with the additive-offset fallback of `closeRel`. -/
def keplerianClose (a b : KeplerianElements) : Prop :=
  closeRel a.semiMajorAxis b.semiMajorAxis ∧
    closeRel a.eccentricity b.eccentricity ∧
    closeRel a.inclination b.inclination ∧
    closeRel a.argumentOfPeriapsis b.argumentOfPeriapsis ∧
    closeRel a.longitudeOfAscendingNode b.longitudeOfAscendingNode ∧
    closeRel a.trueAnomaly b.trueAnomaly

/-- The Keplerian-to-USMEM-and-back composition of the two conversions. -/
noncomputable def usmemRoundTrip (k : KeplerianElements) (mu : ℝ) :
    Except String KeplerianElements :=
  (convertKeplerianToUnifiedStateModelWithExponentialMapElements k mu).bind
    (fun u => convertUnifiedStateModelWithExponentialMapToKeplerianElements u mu)

/-! ## Polyhedron gravity field

The class layout, constructors and evaluator orchestration below follow
`include/tudat/astro/gravitation/polyhedronGravityField.h` directly.  The
bodies of the free `calculatePolyhedron...` helpers and of
`PolyhedronGravityCache::update` are declared but not defined in the provided
sources, so they are modelled from the spec (sections 4.2 and 4.4, citing
Werner and Scheeres 1997). -/

/-- Vertex lookup in a coordinate list (out-of-range indices fall back to the
origin; the C++ code would index out of bounds there, which construction never
checks). -/
def vertexAt (l : List Vec3) (i : ℕ) : Vec3 := l.getD i ⟨0, 0, 0⟩

/-- Modelled from the spec: `calculatePolyhedronVerticesCoordinatesRelativeToFieldPoint`
(body absent from the provided sources; the header documents it and spec
section 4.2 step 1 defines it): the coordinates of every vertex relative to
the field point. -/
def calculatePolyhedronVerticesCoordinatesRelativeToFieldPoint
    (bodyFixedPosition : Vec3) (verticesCoordinates : List Vec3) : List Vec3 :=
  verticesCoordinates.map (fun v => v.sub bodyFixedPosition)

/-- Modelled from the spec: `calculatePolyhedronPerFacetFactor` (body absent
from the provided sources): the per-facet scalar factor of Eq. 27 of Werner
and Scheeres (1997), the signed solid angle subtended by the facet from the
field point, via the van Oosterom-Strackee two-argument arctangent form. -/
noncomputable def calculatePolyhedronPerFacetFactor
    (verticesCoordinatesRelativeToFieldPoint : List Vec3)
    (verticesDefiningEachFacet : List (ℕ × ℕ × ℕ)) : List ℝ :=
  verticesDefiningEachFacet.map (fun f =>
    let r1 := vertexAt verticesCoordinatesRelativeToFieldPoint f.1
    let r2 := vertexAt verticesCoordinatesRelativeToFieldPoint f.2.1
    let r3 := vertexAt verticesCoordinatesRelativeToFieldPoint f.2.2
    2 * atan2m (r1.dot (r2.cross r3))
      (r1.norm * r2.norm * r3.norm + r1.norm * (r2.dot r3) +
        r2.norm * (r3.dot r1) + r3.norm * (r1.dot r2)))

/-- Modelled from the spec: `calculatePolyhedronPerEdgeFactor` (body absent
from the provided sources): the per-edge scalar factor of Eq. 7 of Werner and
Scheeres (1997), a logarithmic term of the distances of the edge vertices to
the field point. -/
noncomputable def calculatePolyhedronPerEdgeFactor
    (verticesCoordinatesRelativeToFieldPoint : List Vec3)
    (verticesDefiningEachEdge : List (ℕ × ℕ)) : List ℝ :=
  verticesDefiningEachEdge.map (fun ed =>
    let r1 := vertexAt verticesCoordinatesRelativeToFieldPoint ed.1
    let r2 := vertexAt verticesCoordinatesRelativeToFieldPoint ed.2
    let edgeLength := (r1.sub r2).norm
    Real.log ((r1.norm + r2.norm + edgeLength) / (r1.norm + r2.norm - edgeLength)))

/-- Modelled from the spec: `calculatePolyhedronGravitationalPotential` (body
absent from the provided sources; spec section 4.4, Eq. 10 of Werner and
Scheeres 1997): sum over edges of the edge-dyad quadratic form at the edge
vertex times the per-edge factor, minus the analogous facet sum, times half
the density constant. -/
noncomputable def calculatePolyhedronGravitationalPotential
    (gravitationalConstantTimesDensity : ℝ)
    (verticesCoordinatesRelativeToFieldPoint : List Vec3)
    (verticesDefiningEachFacet : List (ℕ × ℕ × ℕ))
    (verticesDefiningEachEdge : List (ℕ × ℕ))
    (facetDyads edgeDyads : List Mat3)
    (perFacetFactor perEdgeFactor : List ℝ) : ℝ :=
  let edgeSum := ((List.range verticesDefiningEachEdge.length).map (fun i =>
    (edgeDyads.getD i ⟨⟨0,0,0⟩,⟨0,0,0⟩,⟨0,0,0⟩⟩).quadForm
        (vertexAt verticesCoordinatesRelativeToFieldPoint
          ((verticesDefiningEachEdge.getD i (0, 0)).1)) *
      perEdgeFactor.getD i 0)).sum
  let facetSum := ((List.range verticesDefiningEachFacet.length).map (fun i =>
    (facetDyads.getD i ⟨⟨0,0,0⟩,⟨0,0,0⟩,⟨0,0,0⟩⟩).quadForm
        (vertexAt verticesCoordinatesRelativeToFieldPoint
          ((verticesDefiningEachFacet.getD i (0, 0, 0)).1)) *
      perFacetFactor.getD i 0)).sum
  1 / 2 * gravitationalConstantTimesDensity * (edgeSum - facetSum)

/-- Modelled from the spec: `calculatePolyhedronGradientOfGravitationalPotential`
(body absent from the provided sources; spec section 4.4, Eq. 15): sum over
edges of the edge dyad applied to the relative position times the per-edge
factor, minus the analogous facet sum, times the density constant. -/
noncomputable def calculatePolyhedronGradientOfGravitationalPotential
    (gravitationalConstantTimesDensity : ℝ)
    (verticesCoordinatesRelativeToFieldPoint : List Vec3)
    (verticesDefiningEachFacet : List (ℕ × ℕ × ℕ))
    (verticesDefiningEachEdge : List (ℕ × ℕ))
    (facetDyads edgeDyads : List Mat3)
    (perFacetFactor perEdgeFactor : List ℝ) : Vec3 :=
  let term := fun (m : Mat3) (v : Vec3) (c : ℝ) =>
    ⟨c * (m.mulVec v).x, c * (m.mulVec v).y, c * (m.mulVec v).z⟩
  let addV := fun (a b : Vec3) => Vec3.mk (a.x + b.x) (a.y + b.y) (a.z + b.z)
  let edgeSum := ((List.range verticesDefiningEachEdge.length).map (fun i =>
    term (edgeDyads.getD i ⟨⟨0,0,0⟩,⟨0,0,0⟩,⟨0,0,0⟩⟩)
      (vertexAt verticesCoordinatesRelativeToFieldPoint
        ((verticesDefiningEachEdge.getD i (0, 0)).1))
      (perEdgeFactor.getD i 0))).foldr addV ⟨0, 0, 0⟩
  let facetSum := ((List.range verticesDefiningEachFacet.length).map (fun i =>
    term (facetDyads.getD i ⟨⟨0,0,0⟩,⟨0,0,0⟩,⟨0,0,0⟩⟩)
      (vertexAt verticesCoordinatesRelativeToFieldPoint
        ((verticesDefiningEachFacet.getD i (0, 0, 0)).1))
      (perFacetFactor.getD i 0))).foldr addV ⟨0, 0, 0⟩
  ⟨gravitationalConstantTimesDensity * (edgeSum.x - facetSum.x),
    gravitationalConstantTimesDensity * (edgeSum.y - facetSum.y),
    gravitationalConstantTimesDensity * (edgeSum.z - facetSum.z)⟩

/-- Modelled from the spec: `calculatePolyhedronHessianOfGravitationalPotential`
(body absent from the provided sources; spec section 4.4, Eq. 16): sum of edge
dyads weighted by the per-edge factors minus the sum of facet dyads weighted
by the per-facet factors, times the density constant. -/
noncomputable def calculatePolyhedronHessianOfGravitationalPotential
    (gravitationalConstantTimesDensity : ℝ)
    (facetDyads edgeDyads : List Mat3)
    (perFacetFactor perEdgeFactor : List ℝ) : Mat3 :=
  let smul := fun (c : ℝ) (m : Mat3) => Mat3.mk
    ⟨c * m.r1.x, c * m.r1.y, c * m.r1.z⟩
    ⟨c * m.r2.x, c * m.r2.y, c * m.r2.z⟩
    ⟨c * m.r3.x, c * m.r3.y, c * m.r3.z⟩
  let addM := fun (a b : Mat3) => Mat3.mk
    ⟨a.r1.x + b.r1.x, a.r1.y + b.r1.y, a.r1.z + b.r1.z⟩
    ⟨a.r2.x + b.r2.x, a.r2.y + b.r2.y, a.r2.z + b.r2.z⟩
    ⟨a.r3.x + b.r3.x, a.r3.y + b.r3.y, a.r3.z + b.r3.z⟩
  let zeroM : Mat3 := ⟨⟨0,0,0⟩,⟨0,0,0⟩,⟨0,0,0⟩⟩
  let edgeSum := ((List.range perEdgeFactor.length).map (fun i =>
    smul (perEdgeFactor.getD i 0) (edgeDyads.getD i zeroM))).foldr addM zeroM
  let facetSum := ((List.range perFacetFactor.length).map (fun i =>
    smul (perFacetFactor.getD i 0) (facetDyads.getD i zeroM))).foldr addM zeroM
  smul gravitationalConstantTimesDensity
    (addM edgeSum (smul (-1) facetSum))

/-- Modelled from the spec: `calculatePolyhedronLaplacianOfGravitationalPotential`
(body absent from the provided sources; spec section 4.4, Laplacian, Eq. 17):
the density constant times minus four pi times the sum of the per-facet
factors. -/
noncomputable def calculatePolyhedronLaplacianOfGravitationalPotential
    (gravitationalConstantTimesDensity : ℝ)
    (perFacetFactor : List ℝ) : ℝ :=
  gravitationalConstantTimesDensity * (-(4 * π) * perFacetFactor.sum)

/-- The polyhedron gravity cache of `polyhedronGravityField.h`: the immutable
shape copies, the current body-fixed position, and the derived per-query
data.  The C++ member `currentBodyFixedPosition_` is an `Eigen::Vector3d`
seeded with `TUDAT_NAN`, hence the `RD` scalar type here; the three derived
containers are default-constructed (empty) Eigen matrices. -/
structure PolyhedronGravityCache where
  currentBodyFixedPosition : RD × RD × RD
  verticesCoordinates : List Vec3
  verticesDefiningEachFacet : List (ℕ × ℕ × ℕ)
  verticesDefiningEachEdge : List (ℕ × ℕ)
  currentVerticesCoordinatesRelativeToFieldPoint : List Vec3
  currentPerFacetFactor : List ℝ
  currentPerEdgeFactor : List ℝ

/-- The `PolyhedronGravityCache` constructor: copies the shape, seeds the
current position with the NaN triple, and leaves the derived containers
default-constructed (empty). -/
def PolyhedronGravityCache.init
    (verticesCoordinates : List Vec3)
    (verticesDefiningEachFacet : List (ℕ × ℕ × ℕ))
    (verticesDefiningEachEdge : List (ℕ × ℕ)) : PolyhedronGravityCache :=
  { currentBodyFixedPosition := (RD.nan, RD.nan, RD.nan)
    verticesCoordinates := verticesCoordinates
    verticesDefiningEachFacet := verticesDefiningEachFacet
    verticesDefiningEachEdge := verticesDefiningEachEdge
    currentVerticesCoordinatesRelativeToFieldPoint := []
    currentPerFacetFactor := []
    currentPerEdgeFactor := [] }

/-- Modelled from the spec: `PolyhedronGravityCache::update` (body absent from
the provided sources; spec section 4.2): store the new position and recompute
the relative vertex coordinates, the per-facet factors and the per-edge
factors for it. -/
noncomputable def PolyhedronGravityCache.update
    (c : PolyhedronGravityCache) (currentBodyFixedPosition : Vec3) :
    PolyhedronGravityCache :=
  let rel := calculatePolyhedronVerticesCoordinatesRelativeToFieldPoint
    currentBodyFixedPosition c.verticesCoordinates
  { c with
    currentBodyFixedPosition :=
      (RD.fin currentBodyFixedPosition.x, RD.fin currentBodyFixedPosition.y,
        RD.fin currentBodyFixedPosition.z)
    currentVerticesCoordinatesRelativeToFieldPoint := rel
    currentPerFacetFactor :=
      calculatePolyhedronPerFacetFactor rel c.verticesDefiningEachFacet
    currentPerEdgeFactor :=
      calculatePolyhedronPerEdgeFactor rel c.verticesDefiningEachEdge }

/-- Getter `getVerticesCoordinatesRelativeToFieldPoint` of the cache. -/
def PolyhedronGravityCache.getVerticesCoordinatesRelativeToFieldPoint
    (c : PolyhedronGravityCache) : List Vec3 :=
  c.currentVerticesCoordinatesRelativeToFieldPoint

/-- Getter `getPerFacetFactor` of the cache. -/
def PolyhedronGravityCache.getPerFacetFactor (c : PolyhedronGravityCache) : List ℝ :=
  c.currentPerFacetFactor

/-- Getter `getPerEdgeFactor` of the cache. -/
def PolyhedronGravityCache.getPerEdgeFactor (c : PolyhedronGravityCache) : List ℝ :=
  c.currentPerEdgeFactor

/-- The polyhedron gravity field of `polyhedronGravityField.h`: gravitational
parameter, volume, immutable shape description, precomputed dyads, frame
identifier, and the owned geometry cache. -/
structure PolyhedronGravityField where
  gravitationalParameter : ℝ
  volume : ℝ
  verticesCoordinates : List Vec3
  verticesDefiningEachFacet : List (ℕ × ℕ × ℕ)
  verticesDefiningEachEdge : List (ℕ × ℕ)
  facetDyads : List Mat3
  edgeDyads : List Mat3
  fixedReferenceFrame : String
  polyhedronGravityCache : PolyhedronGravityCache

/-- The `PolyhedronGravityField` constructor body: store every argument and
build a fresh cache from the shape.  It contains no validation of any kind. -/
def mkPolyhedronGravityField
    (gravitationalParameter volume : ℝ)
    (verticesCoordinates : List Vec3)
    (verticesDefiningEachFacet : List (ℕ × ℕ × ℕ))
    (verticesDefiningEachEdge : List (ℕ × ℕ))
    (facetDyads edgeDyads : List Mat3)
    (fixedReferenceFrame : String) : PolyhedronGravityField :=
  { gravitationalParameter := gravitationalParameter
    volume := volume
    verticesCoordinates := verticesCoordinates
    verticesDefiningEachFacet := verticesDefiningEachFacet
    verticesDefiningEachEdge := verticesDefiningEachEdge
    facetDyads := facetDyads
    edgeDyads := edgeDyads
    fixedReferenceFrame := fixedReferenceFrame
    polyhedronGravityCache := PolyhedronGravityCache.init
      verticesCoordinates verticesDefiningEachFacet verticesDefiningEachEdge }

/-- Construction of a `PolyhedronGravityField` with the C++ exception
semantics made explicit: the constructor can in principle propagate a thrown
exception (`Except.error`), but its body performs no check and always
returns the constructed instance. -/
def polyhedronGravityFieldConstruct
    (gravitationalParameter volume : ℝ)
    (verticesCoordinates : List Vec3)
    (verticesDefiningEachFacet : List (ℕ × ℕ × ℕ))
    (verticesDefiningEachEdge : List (ℕ × ℕ))
    (facetDyads edgeDyads : List Mat3)
    (fixedReferenceFrame : String) : Except String PolyhedronGravityField :=
  .ok (mkPolyhedronGravityField gravitationalParameter volume
    verticesCoordinates verticesDefiningEachFacet verticesDefiningEachEdge
    facetDyads edgeDyads fixedReferenceFrame)

/-- `PolyhedronGravityField::getGravitationalPotential`: update the cache at
the body-fixed position, then evaluate the potential from the cache, the
stored dyads and the density constant `gravitationalParameter / volume`.
Returns the value together with the mutated object. -/
noncomputable def PolyhedronGravityField.getGravitationalPotential
    (g : PolyhedronGravityField) (bodyFixedPosition : Vec3) :
    ℝ × PolyhedronGravityField :=
  let cache := g.polyhedronGravityCache.update bodyFixedPosition
  (calculatePolyhedronGravitationalPotential
      (g.gravitationalParameter / g.volume)
      cache.getVerticesCoordinatesRelativeToFieldPoint
      g.verticesDefiningEachFacet
      g.verticesDefiningEachEdge
      g.facetDyads
      g.edgeDyads
      cache.getPerFacetFactor
      cache.getPerEdgeFactor,
    { g with polyhedronGravityCache := cache })

/-- `PolyhedronGravityField::getGradientOfPotential`. -/
noncomputable def PolyhedronGravityField.getGradientOfPotential
    (g : PolyhedronGravityField) (bodyFixedPosition : Vec3) :
    Vec3 × PolyhedronGravityField :=
  let cache := g.polyhedronGravityCache.update bodyFixedPosition
  (calculatePolyhedronGradientOfGravitationalPotential
      (g.gravitationalParameter / g.volume)
      cache.getVerticesCoordinatesRelativeToFieldPoint
      g.verticesDefiningEachFacet
      g.verticesDefiningEachEdge
      g.facetDyads
      g.edgeDyads
      cache.getPerFacetFactor
      cache.getPerEdgeFactor,
    { g with polyhedronGravityCache := cache })

/-- `PolyhedronGravityField::getHessianOfPotential`. -/
noncomputable def PolyhedronGravityField.getHessianOfPotential
    (g : PolyhedronGravityField) (bodyFixedPosition : Vec3) :
    Mat3 × PolyhedronGravityField :=
  let cache := g.polyhedronGravityCache.update bodyFixedPosition
  (calculatePolyhedronHessianOfGravitationalPotential
      (g.gravitationalParameter / g.volume)
      g.facetDyads
      g.edgeDyads
      cache.getPerFacetFactor
      cache.getPerEdgeFactor,
    { g with polyhedronGravityCache := cache })

/-- `PolyhedronGravityField::getLaplacianOfPotential`. -/
noncomputable def PolyhedronGravityField.getLaplacianOfPotential
    (g : PolyhedronGravityField) (bodyFixedPosition : Vec3) :
    ℝ × PolyhedronGravityField :=
  let cache := g.polyhedronGravityCache.update bodyFixedPosition
  (calculatePolyhedronLaplacianOfGravitationalPotential
      (g.gravitationalParameter / g.volume)
      cache.getPerFacetFactor,
    { g with polyhedronGravityCache := cache })

/-- One call to any of the four evaluator entry points, recorded with its
body-fixed position. -/
inductive EvaluatorCall where
  | potential : Vec3 → EvaluatorCall
  | gradient : Vec3 → EvaluatorCall
  | hessian : Vec3 → EvaluatorCall
  | laplacian : Vec3 → EvaluatorCall

/-- The body-fixed position of an evaluator call. -/
def EvaluatorCall.position : EvaluatorCall → Vec3
  | .potential p => p
  | .gradient p => p
  | .hessian p => p
  | .laplacian p => p

/-- State transition of the gravity-field object under one evaluator call
(the returned value is discarded). -/
noncomputable def applyEvaluatorCall
    (g : PolyhedronGravityField) : EvaluatorCall → PolyhedronGravityField
  | .potential p => (g.getGravitationalPotential p).2
  | .gradient p => (g.getGradientOfPotential p).2
  | .hessian p => (g.getHessianOfPotential p).2
  | .laplacian p => (g.getLaplacianOfPotential p).2

/-! ## Spec-side formulations used by the polyhedron claims -/

/-- The potential exactly as claim C4 words it: half the density constant
(gravitational parameter over volume) times the difference of the edge and
facet sums, with the relative coordinates and the per-facet and per-edge
factors freshly computed for the query position, bypassing the cache. -/
noncomputable def specPolyhedronPotential
    (g : PolyhedronGravityField) (p : Vec3) : ℝ :=
  let rel := g.verticesCoordinates.map (fun v => v.sub p)
  let perEdge := calculatePolyhedronPerEdgeFactor rel g.verticesDefiningEachEdge
  let perFacet := calculatePolyhedronPerFacetFactor rel g.verticesDefiningEachFacet
  let edgeSum := ((List.range g.verticesDefiningEachEdge.length).map (fun i =>
    (g.edgeDyads.getD i ⟨⟨0,0,0⟩,⟨0,0,0⟩,⟨0,0,0⟩⟩).quadForm
        (vertexAt rel ((g.verticesDefiningEachEdge.getD i (0, 0)).1)) *
      perEdge.getD i 0)).sum
  let facetSum := ((List.range g.verticesDefiningEachFacet.length).map (fun i =>
    (g.facetDyads.getD i ⟨⟨0,0,0⟩,⟨0,0,0⟩,⟨0,0,0⟩⟩).quadForm
        (vertexAt rel ((g.verticesDefiningEachFacet.getD i (0, 0, 0)).1)) *
      perFacet.getD i 0)).sum
  1 / 2 * (g.gravitationalParameter / g.volume) * (edgeSum - facetSum)

/-- The Laplacian exactly as claim C5 words it: the density constant
(gravitational parameter over volume) times minus four pi times the sum of
the per-facet factors computed at the query position, bypassing the cache. -/
noncomputable def specPolyhedronLaplacian
    (g : PolyhedronGravityField) (p : Vec3) : ℝ :=
  (g.gravitationalParameter / g.volume) *
    (-(4 * π) * (calculatePolyhedronPerFacetFactor
      (g.verticesCoordinates.map (fun v => v.sub p))
      g.verticesDefiningEachFacet).sum)

/-- A gravity-field instance whose cache carries the same shape copies as the
object itself; every instance built by the constructor has this property, and
evaluator calls preserve it. -/
def PolyhedronGravityField.wellFormed (g : PolyhedronGravityField) : Prop :=
  g.polyhedronGravityCache.verticesCoordinates = g.verticesCoordinates ∧
    g.polyhedronGravityCache.verticesDefiningEachFacet = g.verticesDefiningEachFacet ∧
    g.polyhedronGravityCache.verticesDefiningEachEdge = g.verticesDefiningEachEdge

/-- `getVolume` accessor. -/
def PolyhedronGravityField.getVolume (g : PolyhedronGravityField) : ℝ := g.volume

/-- `getVerticesCoordinates` accessor. -/
def PolyhedronGravityField.getVerticesCoordinates (g : PolyhedronGravityField) :
    List Vec3 := g.verticesCoordinates

/-- `getVerticesDefiningEachFacet` accessor. -/
def PolyhedronGravityField.getVerticesDefiningEachFacet (g : PolyhedronGravityField) :
    List (ℕ × ℕ × ℕ) := g.verticesDefiningEachFacet

/-- `getVerticesDefiningEachEdge` accessor. -/
def PolyhedronGravityField.getVerticesDefiningEachEdge (g : PolyhedronGravityField) :
    List (ℕ × ℕ) := g.verticesDefiningEachEdge

/-- `getFacetDyads` accessor. -/
def PolyhedronGravityField.getFacetDyads (g : PolyhedronGravityField) :
    List Mat3 := g.facetDyads

/-- `getEdgeDyads` accessor. -/
def PolyhedronGravityField.getEdgeDyads (g : PolyhedronGravityField) :
    List Mat3 := g.edgeDyads

/-- `getFixedReferenceFrame` accessor. -/
def PolyhedronGravityField.getFixedReferenceFrame (g : PolyhedronGravityField) :
    String := g.fixedReferenceFrame

/-- Connectivity with some facet or edge vertex index out of range of the
vertex list, as in claim C9. -/
def malformedConnectivity (verticesCoordinates : List Vec3)
    (verticesDefiningEachFacet : List (ℕ × ℕ × ℕ))
    (verticesDefiningEachEdge : List (ℕ × ℕ)) : Prop :=
  (∃ f ∈ verticesDefiningEachFacet, verticesCoordinates.length ≤ f.1 ∨
      verticesCoordinates.length ≤ f.2.1 ∨ verticesCoordinates.length ≤ f.2.2) ∨
    (∃ e ∈ verticesDefiningEachEdge, verticesCoordinates.length ≤ e.1 ∨
      verticesCoordinates.length ≤ e.2)

/-! ## Helper lemmas for the polyhedron claims -/

/-- `update` leaves the shape copies stored in the cache unchanged. -/
theorem cacheUpdate_preserves_shape (c : PolyhedronGravityCache) (p : Vec3) :
    (c.update p).verticesCoordinates = c.verticesCoordinates ∧
      (c.update p).verticesDefiningEachFacet = c.verticesDefiningEachFacet ∧
      (c.update p).verticesDefiningEachEdge = c.verticesDefiningEachEdge :=
  ⟨rfl, rfl, rfl⟩

/-- Two successive updates are the same as the last one alone: `update`
overwrites every mutable cache field from the new position and the immutable
shape. -/
theorem cacheUpdate_update (c : PolyhedronGravityCache) (q p : Vec3) :
    (c.update q).update p = c.update p := rfl

/-- Each evaluator entry point leaves the object with exactly the cache
obtained by one `update` at its position. -/
theorem applyEvaluatorCall_cache (g : PolyhedronGravityField) (c : EvaluatorCall) :
    (applyEvaluatorCall g c).polyhedronGravityCache =
      g.polyhedronGravityCache.update c.position := by
  cases c <;> rfl

/-- The static data of a gravity-field object: everything except the cache. -/
def PolyhedronGravityField.staticPart (g : PolyhedronGravityField) :
    ℝ × ℝ × List Vec3 × List (ℕ × ℕ × ℕ) × List (ℕ × ℕ) ×
      List Mat3 × List Mat3 × String :=
  (g.gravitationalParameter, g.volume, g.verticesCoordinates,
    g.verticesDefiningEachFacet, g.verticesDefiningEachEdge,
    g.facetDyads, g.edgeDyads, g.fixedReferenceFrame)

/-- An evaluator call changes nothing outside the cache. -/
theorem applyEvaluatorCall_staticPart (g : PolyhedronGravityField) (c : EvaluatorCall) :
    (applyEvaluatorCall g c).staticPart = g.staticPart := by
  cases c <;> rfl

/-- A sequence of evaluator calls changes nothing outside the cache. -/
theorem foldl_applyEvaluatorCall_staticPart (calls : List EvaluatorCall) :
    ∀ g : PolyhedronGravityField,
      (calls.foldl applyEvaluatorCall g).staticPart = g.staticPart := by
  induction calls with
  | nil => intro g; rfl
  | cons c cs ih =>
      intro g
      exact (ih (applyEvaluatorCall g c)).trans (applyEvaluatorCall_staticPart g c)

/-- After a non-empty sequence of evaluator calls the cache is exactly the
one-update cache of the last position. -/
theorem foldl_applyEvaluatorCall_cache_last (calls : List EvaluatorCall) :
    ∀ (g : PolyhedronGravityField) (p : Vec3),
      (calls.map EvaluatorCall.position).getLast? = some p →
        (calls.foldl applyEvaluatorCall g).polyhedronGravityCache =
          g.polyhedronGravityCache.update p := by
  induction calls with
  | nil => intro g p h; simp at h
  | cons c cs ih =>
      intro g p h
      cases cs with
      | nil =>
          simp at h
          subst h
          exact applyEvaluatorCall_cache g c
      | cons c' cs' =>
          have hlast : ((c' :: cs').map EvaluatorCall.position).getLast? = some p := by
            simpa [List.getLast?_cons_cons] using h
          have := ih (applyEvaluatorCall g c) p hlast
          rw [List.foldl_cons, this, applyEvaluatorCall_cache, cacheUpdate_update]

/-! ## Claim C4: potential formula -/

/-- Claim C4: for every query position `p` (and any prior cache contents),
`PolyhedronGravityField::getGravitationalPotential(p)` returns half the
density constant `gravitationalParameter / volume` times the difference of
the edge sum (edge-dyad quadratic forms at the relative edge-vertex
coordinates times the per-edge factors) and the facet sum, with all factors
and relative coordinates freshly computed for `p`. -/
theorem polyhedron_potential_matches_spec
    (g : PolyhedronGravityField) (p : Vec3) (h : g.wellFormed) :
    (g.getGravitationalPotential p).1 = specPolyhedronPotential g p := by
  obtain ⟨h1, h2, h3⟩ := h
  simp only [PolyhedronGravityField.getGravitationalPotential,
    specPolyhedronPotential, PolyhedronGravityCache.update,
    PolyhedronGravityCache.getVerticesCoordinatesRelativeToFieldPoint,
    PolyhedronGravityCache.getPerFacetFactor,
    PolyhedronGravityCache.getPerEdgeFactor,
    calculatePolyhedronGravitationalPotential,
    calculatePolyhedronVerticesCoordinatesRelativeToFieldPoint]
  rw [h1, h2, h3]

/-- Witness for claim C4 at a concrete well-formed instance. -/
theorem polyhedron_potential_matches_spec_witness :
    (mkPolyhedronGravityField 2 1 [⟨0,0,0⟩, ⟨1,0,0⟩, ⟨0,1,0⟩] [(0,1,2)] [(0,1)]
        [⟨⟨1,0,0⟩,⟨0,1,0⟩,⟨0,0,1⟩⟩] [⟨⟨1,0,0⟩,⟨0,1,0⟩,⟨0,0,1⟩⟩] "frame").wellFormed ∧
      ((mkPolyhedronGravityField 2 1 [⟨0,0,0⟩, ⟨1,0,0⟩, ⟨0,1,0⟩] [(0,1,2)] [(0,1)]
        [⟨⟨1,0,0⟩,⟨0,1,0⟩,⟨0,0,1⟩⟩] [⟨⟨1,0,0⟩,⟨0,1,0⟩,⟨0,0,1⟩⟩] "frame").getGravitationalPotential
          ⟨5,0,0⟩).1 =
        specPolyhedronPotential
          (mkPolyhedronGravityField 2 1 [⟨0,0,0⟩, ⟨1,0,0⟩, ⟨0,1,0⟩] [(0,1,2)] [(0,1)]
            [⟨⟨1,0,0⟩,⟨0,1,0⟩,⟨0,0,1⟩⟩] [⟨⟨1,0,0⟩,⟨0,1,0⟩,⟨0,0,1⟩⟩] "frame") ⟨5,0,0⟩ :=
  ⟨⟨rfl, rfl, rfl⟩, polyhedron_potential_matches_spec _ _ ⟨rfl, rfl, rfl⟩⟩

/-! ## Claim C5: Laplacian formula -/

/-- Claim C5: for every query position `p` (and any prior cache contents),
`PolyhedronGravityField::getLaplacianOfPotential(p)` returns the density
constant `gravitationalParameter / volume` times minus four pi times the sum
of the per-facet factors computed at `p`. -/
theorem polyhedron_laplacian_matches_spec
    (g : PolyhedronGravityField) (p : Vec3) (h : g.wellFormed) :
    (g.getLaplacianOfPotential p).1 = specPolyhedronLaplacian g p := by
  obtain ⟨h1, h2, h3⟩ := h
  simp only [PolyhedronGravityField.getLaplacianOfPotential,
    specPolyhedronLaplacian, PolyhedronGravityCache.update,
    PolyhedronGravityCache.getPerFacetFactor,
    calculatePolyhedronLaplacianOfGravitationalPotential,
    calculatePolyhedronVerticesCoordinatesRelativeToFieldPoint]
  rw [h1, h2]

/-- Witness for claim C5 at a concrete well-formed instance. -/
theorem polyhedron_laplacian_matches_spec_witness :
    (mkPolyhedronGravityField 3 2 [⟨0,0,0⟩, ⟨1,0,0⟩, ⟨0,1,0⟩] [(0,1,2)] [(1,2)]
        [⟨⟨1,0,0⟩,⟨0,1,0⟩,⟨0,0,1⟩⟩] [⟨⟨1,0,0⟩,⟨0,1,0⟩,⟨0,0,1⟩⟩] "fr2").wellFormed ∧
      ((mkPolyhedronGravityField 3 2 [⟨0,0,0⟩, ⟨1,0,0⟩, ⟨0,1,0⟩] [(0,1,2)] [(1,2)]
        [⟨⟨1,0,0⟩,⟨0,1,0⟩,⟨0,0,1⟩⟩] [⟨⟨1,0,0⟩,⟨0,1,0⟩,⟨0,0,1⟩⟩] "fr2").getLaplacianOfPotential
          ⟨0,2,0⟩).1 =
        specPolyhedronLaplacian
          (mkPolyhedronGravityField 3 2 [⟨0,0,0⟩, ⟨1,0,0⟩, ⟨0,1,0⟩] [(0,1,2)] [(1,2)]
            [⟨⟨1,0,0⟩,⟨0,1,0⟩,⟨0,0,1⟩⟩] [⟨⟨1,0,0⟩,⟨0,1,0⟩,⟨0,0,1⟩⟩] "fr2") ⟨0,2,0⟩ :=
  ⟨⟨rfl, rfl, rfl⟩, polyhedron_laplacian_matches_spec _ _ ⟨rfl, rfl, rfl⟩⟩

/-! ## Claim C6: exactly one cache update per evaluator call -/

/-- Claim C6: every call to any of the four evaluator entry points with
body-fixed position `p` performs exactly one cache update at `p` before
reading the cache: the object is left with precisely the one-update cache of
`p` (holding the relative coordinates and per-facet and per-edge factors
derived from `p`), and after any sequence of evaluator calls the cache is
exactly the one-update cache of the most recent position. -/
theorem polyhedron_evaluators_single_cache_update :
    (∀ (g : PolyhedronGravityField) (p : Vec3),
      (g.getGravitationalPotential p).2.polyhedronGravityCache =
          g.polyhedronGravityCache.update p ∧
        (g.getGradientOfPotential p).2.polyhedronGravityCache =
          g.polyhedronGravityCache.update p ∧
        (g.getHessianOfPotential p).2.polyhedronGravityCache =
          g.polyhedronGravityCache.update p ∧
        (g.getLaplacianOfPotential p).2.polyhedronGravityCache =
          g.polyhedronGravityCache.update p) ∧
    (∀ (c : PolyhedronGravityCache) (p : Vec3),
      (c.update p).currentVerticesCoordinatesRelativeToFieldPoint =
          calculatePolyhedronVerticesCoordinatesRelativeToFieldPoint p
            c.verticesCoordinates ∧
        (c.update p).currentPerFacetFactor =
          calculatePolyhedronPerFacetFactor
            (calculatePolyhedronVerticesCoordinatesRelativeToFieldPoint p
              c.verticesCoordinates) c.verticesDefiningEachFacet ∧
        (c.update p).currentPerEdgeFactor =
          calculatePolyhedronPerEdgeFactor
            (calculatePolyhedronVerticesCoordinatesRelativeToFieldPoint p
              c.verticesCoordinates) c.verticesDefiningEachEdge) ∧
    (∀ (calls : List EvaluatorCall) (g : PolyhedronGravityField) (p : Vec3),
      (calls.map EvaluatorCall.position).getLast? = some p →
        (calls.foldl applyEvaluatorCall g).polyhedronGravityCache =
          g.polyhedronGravityCache.update p) :=
  ⟨fun _ _ => ⟨rfl, rfl, rfl, rfl⟩,
    fun _ _ => ⟨rfl, rfl, rfl⟩,
    fun calls g p h => foldl_applyEvaluatorCall_cache_last calls g p h⟩

/-- Witness for claim C6: a concrete two-call sequence ending at a concrete
position. -/
theorem polyhedron_evaluators_single_cache_update_witness :
    ((([EvaluatorCall.potential ⟨1,2,3⟩, EvaluatorCall.laplacian ⟨4,5,6⟩]).map
        EvaluatorCall.position).getLast? = some (⟨4,5,6⟩ : Vec3)) ∧
      (([EvaluatorCall.potential ⟨1,2,3⟩, EvaluatorCall.laplacian ⟨4,5,6⟩].foldl
          applyEvaluatorCall
          (mkPolyhedronGravityField 1 1 [⟨0,0,0⟩] [(0,0,0)] [(0,0)] [] [] "w")).polyhedronGravityCache =
        (mkPolyhedronGravityField 1 1 [⟨0,0,0⟩] [(0,0,0)] [(0,0)] [] []
            "w").polyhedronGravityCache.update ⟨4,5,6⟩) :=
  ⟨rfl, polyhedron_evaluators_single_cache_update.2.2
    [EvaluatorCall.potential ⟨1,2,3⟩, EvaluatorCall.laplacian ⟨4,5,6⟩]
    (mkPolyhedronGravityField 1 1 [⟨0,0,0⟩] [(0,0,0)] [(0,0)] [] [] "w")
    ⟨4,5,6⟩ rfl⟩

/-! ## Claim C7: no leak between successive cache updates -/

/-- Claim C7: after `update(p1); update(p2)` on a polyhedron gravity cache in
any prior state, the three getters return exactly the functions of `p2` and
the immutable shape (vertex coordinates minus `p2`, the per-facet factor of
Eq. 27, the per-edge factor of Eq. 7), with no dependence on `p1`. -/
theorem polyhedron_cache_no_leak
    (c : PolyhedronGravityCache) (p1 p2 : Vec3) (hne : p1 ≠ p2) :
    ((c.update p1).update p2).getVerticesCoordinatesRelativeToFieldPoint =
        c.verticesCoordinates.map (fun v => v.sub p2) ∧
      ((c.update p1).update p2).getPerFacetFactor =
        calculatePolyhedronPerFacetFactor
          (c.verticesCoordinates.map (fun v => v.sub p2))
          c.verticesDefiningEachFacet ∧
      ((c.update p1).update p2).getPerEdgeFactor =
        calculatePolyhedronPerEdgeFactor
          (c.verticesCoordinates.map (fun v => v.sub p2))
          c.verticesDefiningEachEdge :=
  ⟨rfl, rfl, rfl⟩

/-- Witness for claim C7 at two concrete distinct positions. -/
theorem polyhedron_cache_no_leak_witness :
    ((⟨0,0,0⟩ : Vec3) ≠ (⟨1,0,0⟩ : Vec3)) ∧
      ((((PolyhedronGravityCache.init [⟨0,0,0⟩, ⟨2,0,0⟩] [(0,1,0)] [(0,1)]).update
            ⟨0,0,0⟩).update ⟨1,0,0⟩).getVerticesCoordinatesRelativeToFieldPoint =
          ([⟨0,0,0⟩, ⟨2,0,0⟩] : List Vec3).map (fun v => v.sub ⟨1,0,0⟩) ∧
        (((PolyhedronGravityCache.init [⟨0,0,0⟩, ⟨2,0,0⟩] [(0,1,0)] [(0,1)]).update
            ⟨0,0,0⟩).update ⟨1,0,0⟩).getPerFacetFactor =
          calculatePolyhedronPerFacetFactor
            (([⟨0,0,0⟩, ⟨2,0,0⟩] : List Vec3).map (fun v => v.sub ⟨1,0,0⟩)) [(0,1,0)] ∧
        (((PolyhedronGravityCache.init [⟨0,0,0⟩, ⟨2,0,0⟩] [(0,1,0)] [(0,1)]).update
            ⟨0,0,0⟩).update ⟨1,0,0⟩).getPerEdgeFactor =
          calculatePolyhedronPerEdgeFactor
            (([⟨0,0,0⟩, ⟨2,0,0⟩] : List Vec3).map (fun v => v.sub ⟨1,0,0⟩)) [(0,1)]) := by
  have hne : (⟨0,0,0⟩ : Vec3) ≠ (⟨1,0,0⟩ : Vec3) := by
    intro h
    have := congrArg Vec3.x h
    norm_num at this
  exact ⟨hne, polyhedron_cache_no_leak _ _ _ hne⟩

/-! ## Claim C8: state of a freshly constructed cache -/

/-- Counterexample to claim C8 as stated.  The constructor does store the NaN
sentinel position, but the derived containers are default-constructed empty
Eigen matrices, not NaN-seeded vectors sized to the shape: for a concrete
shape with one facet and one edge, reading `getPerFacetFactor` before the
first update yields a vector of length `0`, not a facet-sized vector of NaN
entries, so no NaN can propagate to the caller from these reads. -/
theorem polyhedron_cache_init_not_nan_seeded :
    ¬ ((PolyhedronGravityCache.init [⟨0,0,0⟩, ⟨1,0,0⟩, ⟨0,1,0⟩] [(0,1,2)]
          [(0,1)]).currentBodyFixedPosition = (RD.nan, RD.nan, RD.nan) ∧
        ((PolyhedronGravityCache.init [⟨0,0,0⟩, ⟨1,0,0⟩, ⟨0,1,0⟩] [(0,1,2)]
          [(0,1)]).getPerFacetFactor).length = 1 ∧
        ((PolyhedronGravityCache.init [⟨0,0,0⟩, ⟨1,0,0⟩, ⟨0,1,0⟩] [(0,1,2)]
          [(0,1)]).getPerEdgeFactor).length = 1 ∧
        ((PolyhedronGravityCache.init [⟨0,0,0⟩, ⟨1,0,0⟩, ⟨0,1,0⟩] [(0,1,2)]
          [(0,1)]).getVerticesCoordinatesRelativeToFieldPoint).length = 3) := by
  intro h
  have h2 := h.2.1
  simp [PolyhedronGravityCache.init, PolyhedronGravityCache.getPerFacetFactor] at h2

/-- Claim C8 as amended: a freshly constructed cache stores the sentinel
position `(NaN, NaN, NaN)`, and reading the three getters before the first
update yields the default-constructed empty containers (size zero), rather
than NaN-filled data of the shape dimensions. -/
theorem polyhedron_cache_init_state
    (verticesCoordinates : List Vec3)
    (verticesDefiningEachFacet : List (ℕ × ℕ × ℕ))
    (verticesDefiningEachEdge : List (ℕ × ℕ)) :
    (PolyhedronGravityCache.init verticesCoordinates verticesDefiningEachFacet
        verticesDefiningEachEdge).currentBodyFixedPosition =
        (RD.nan, RD.nan, RD.nan) ∧
      (PolyhedronGravityCache.init verticesCoordinates verticesDefiningEachFacet
        verticesDefiningEachEdge).getVerticesCoordinatesRelativeToFieldPoint = [] ∧
      (PolyhedronGravityCache.init verticesCoordinates verticesDefiningEachFacet
        verticesDefiningEachEdge).getPerFacetFactor = [] ∧
      (PolyhedronGravityCache.init verticesCoordinates verticesDefiningEachFacet
        verticesDefiningEachEdge).getPerEdgeFactor = [] :=
  ⟨rfl, rfl, rfl, rfl⟩

/-! ## Claim C9: no construction-time connectivity validation -/

/-- Counterexample to claim C9 as stated: constructing a polyhedron gravity
field with malformed connectivity (facet row `(0,1,5)` and edge row `(0,7)`
over a single-vertex shape) does not fail at construction time; the
constructor performs no validation and happily returns an instance. -/
theorem polyhedron_construction_no_validation_counterexample :
    ¬ (∀ (gp vol : ℝ) (v : List Vec3) (f : List (ℕ × ℕ × ℕ))
        (e : List (ℕ × ℕ)) (fd ed : List Mat3) (fr : String),
        malformedConnectivity v f e →
          (polyhedronGravityFieldConstruct gp vol v f e fd ed fr).isOk = false) := by
  intro h
  have hm : malformedConnectivity [⟨0,0,0⟩] [(0,1,5)] [(0,7)] :=
    Or.inl ⟨(0, 1, 5), by simp, Or.inr (Or.inr (by simp))⟩
  have := h 1 1 [⟨0,0,0⟩] [(0,1,5)] [(0,7)] [] [] "" hm
  simp [polyhedronGravityFieldConstruct, Except.isOk, Except.toBool] at this

/-- Claim C9 as amended: construction performs no connectivity validation at
all; with any malformed connectivity (out-of-range facet or edge vertex
indices) the constructor still succeeds and returns the instance storing the
arguments unchecked (the out-of-range access would only surface at query
time). -/
theorem polyhedron_construction_no_validation
    (gp vol : ℝ) (v : List Vec3) (f : List (ℕ × ℕ × ℕ)) (e : List (ℕ × ℕ))
    (fd ed : List Mat3) (fr : String)
    (hm : malformedConnectivity v f e) :
    polyhedronGravityFieldConstruct gp vol v f e fd ed fr =
      Except.ok (mkPolyhedronGravityField gp vol v f e fd ed fr) := rfl

/-- Witness for the amended claim C9 at a concrete malformed input. -/
theorem polyhedron_construction_no_validation_witness :
    malformedConnectivity [⟨0,0,0⟩] [(0,1,5)] [(0,7)] ∧
      polyhedronGravityFieldConstruct 1 1 [⟨0,0,0⟩] [(0,1,5)] [(0,7)] [] [] "" =
        Except.ok (mkPolyhedronGravityField 1 1 [⟨0,0,0⟩] [(0,1,5)] [(0,7)] [] [] "") := by
  have hm : malformedConnectivity [⟨0,0,0⟩] [(0,1,5)] [(0,7)] :=
    Or.inl ⟨(0, 1, 5), by simp, Or.inr (Or.inr (by simp))⟩
  exact ⟨hm, polyhedron_construction_no_validation 1 1 _ _ _ _ _ _ hm⟩

/-! ## Claim C10: shape accessors return constructor arguments, unchanged by
evaluator calls -/

/-- Claim C10: the shape accessors return exactly the constructor arguments,
and any sequence of evaluator calls leaves every one of them (together with
the gravitational parameter) unchanged: evaluator calls mutate only the
geometry cache. -/
theorem polyhedron_accessors_constructor_and_immutable :
    (∀ (gp vol : ℝ) (v : List Vec3) (f : List (ℕ × ℕ × ℕ)) (e : List (ℕ × ℕ))
        (fd ed : List Mat3) (fr : String),
      (mkPolyhedronGravityField gp vol v f e fd ed fr).getVolume = vol ∧
        (mkPolyhedronGravityField gp vol v f e fd ed fr).getVerticesCoordinates = v ∧
        (mkPolyhedronGravityField gp vol v f e fd ed fr).getVerticesDefiningEachFacet = f ∧
        (mkPolyhedronGravityField gp vol v f e fd ed fr).getVerticesDefiningEachEdge = e ∧
        (mkPolyhedronGravityField gp vol v f e fd ed fr).getFacetDyads = fd ∧
        (mkPolyhedronGravityField gp vol v f e fd ed fr).getEdgeDyads = ed ∧
        (mkPolyhedronGravityField gp vol v f e fd ed fr).getFixedReferenceFrame = fr ∧
        (mkPolyhedronGravityField gp vol v f e fd ed fr).gravitationalParameter = gp) ∧
    (∀ (g : PolyhedronGravityField) (calls : List EvaluatorCall),
      (calls.foldl applyEvaluatorCall g).getVolume = g.getVolume ∧
        (calls.foldl applyEvaluatorCall g).getVerticesCoordinates =
          g.getVerticesCoordinates ∧
        (calls.foldl applyEvaluatorCall g).getVerticesDefiningEachFacet =
          g.getVerticesDefiningEachFacet ∧
        (calls.foldl applyEvaluatorCall g).getVerticesDefiningEachEdge =
          g.getVerticesDefiningEachEdge ∧
        (calls.foldl applyEvaluatorCall g).getFacetDyads = g.getFacetDyads ∧
        (calls.foldl applyEvaluatorCall g).getEdgeDyads = g.getEdgeDyads ∧
        (calls.foldl applyEvaluatorCall g).getFixedReferenceFrame =
          g.getFixedReferenceFrame ∧
        (calls.foldl applyEvaluatorCall g).gravitationalParameter =
          g.gravitationalParameter) := by
  refine ⟨fun gp vol v f e fd ed fr => ⟨rfl, rfl, rfl, rfl, rfl, rfl, rfl, rfl⟩,
    fun g calls => ?_⟩
  have h := foldl_applyEvaluatorCall_staticPart calls g
  exact ⟨congrArg (fun t => t.2.1) h, congrArg (fun t => t.2.2.1) h,
    congrArg (fun t => t.2.2.2.1) h, congrArg (fun t => t.2.2.2.2.1) h,
    congrArg (fun t => t.2.2.2.2.2.1) h, congrArg (fun t => t.2.2.2.2.2.2.1) h,
    congrArg (fun t => t.2.2.2.2.2.2.2) h, congrArg (fun t => t.1) h⟩

/-! ## Claim C2: degenerate-geometry rejection -/

/-- Claim C2: for every Keplerian input with zero eccentricity and a non-zero
argument of periapsis, or zero inclination and a non-zero longitude of
ascending node, or inclination outside `[0, pi]`, the Keplerian-to-USMEM
conversion raises a runtime error and returns no partial result; being a pure
function, the same invalid input fails the same way on every call (the
second conjunct). -/
theorem usmem_degenerate_inputs_rejected (k : KeplerianElements) (mu : ℝ)
    (h : (k.eccentricity = 0 ∧ k.argumentOfPeriapsis ≠ 0) ∨
      (k.inclination = 0 ∧ k.longitudeOfAscendingNode ≠ 0) ∨
      k.inclination < 0 ∨ π < k.inclination) :
    (∃ msg, convertKeplerianToUnifiedStateModelWithExponentialMapElements k mu =
        Except.error msg) ∧
      convertKeplerianToUnifiedStateModelWithExponentialMapElements k mu =
        convertKeplerianToUnifiedStateModelWithExponentialMapElements k mu := by
  refine ⟨?_, rfl⟩
  unfold convertKeplerianToUnifiedStateModelWithExponentialMapElements
  by_cases hr : k.inclination < 0 ∨ π < k.inclination
  · rw [if_pos hr]; exact ⟨_, rfl⟩
  · rw [if_neg hr]
    rcases h with he | hi | hcontra
    · rw [if_pos he]; exact ⟨_, rfl⟩
    · by_cases he : k.eccentricity = 0 ∧ k.argumentOfPeriapsis ≠ 0
      · rw [if_pos he]; exact ⟨_, rfl⟩
      · rw [if_neg he, if_pos hi]; exact ⟨_, rfl⟩
    · exact absurd hcontra hr

/-- Witness for claim C2: a circular orbit with a non-zero argument of
periapsis is rejected. -/
theorem usmem_degenerate_inputs_rejected_witness :
    (((⟨1.5e11, 0, 1, 1, 0, 0⟩ : KeplerianElements).eccentricity = 0 ∧
        (⟨1.5e11, 0, 1, 1, 0, 0⟩ : KeplerianElements).argumentOfPeriapsis ≠ 0) ∨
      ((⟨1.5e11, 0, 1, 1, 0, 0⟩ : KeplerianElements).inclination = 0 ∧
        (⟨1.5e11, 0, 1, 1, 0, 0⟩ : KeplerianElements).longitudeOfAscendingNode ≠ 0) ∨
      (⟨1.5e11, 0, 1, 1, 0, 0⟩ : KeplerianElements).inclination < 0 ∨
      π < (⟨1.5e11, 0, 1, 1, 0, 0⟩ : KeplerianElements).inclination) ∧
    ∃ msg,
      convertKeplerianToUnifiedStateModelWithExponentialMapElements
        ⟨1.5e11, 0, 1, 1, 0, 0⟩ 1.32712440018e20 = Except.error msg := by
  have hd : ((⟨1.5e11, 0, 1, 1, 0, 0⟩ : KeplerianElements).eccentricity = 0 ∧
      (⟨1.5e11, 0, 1, 1, 0, 0⟩ : KeplerianElements).argumentOfPeriapsis ≠ 0) ∨
      ((⟨1.5e11, 0, 1, 1, 0, 0⟩ : KeplerianElements).inclination = 0 ∧
        (⟨1.5e11, 0, 1, 1, 0, 0⟩ : KeplerianElements).longitudeOfAscendingNode ≠ 0) ∨
      (⟨1.5e11, 0, 1, 1, 0, 0⟩ : KeplerianElements).inclination < 0 ∨
      π < (⟨1.5e11, 0, 1, 1, 0, 0⟩ : KeplerianElements).inclination :=
    Or.inl ⟨rfl, by norm_num⟩
  exact ⟨hd, (usmem_degenerate_inputs_rejected _ _ hd).1⟩

/-! ## Claim C1: the Keplerian-USMEM round trip -/

/-- The two half-latitude angles of the colliding inputs have equal sines. -/
theorem sin_collision_angle : Real.sin (25 * π / 24) = Real.sin (47 * π / 24) := by
  have h1 : (25 : ℝ) * π / 24 = π / 24 + π := by ring
  have h2 : (47 : ℝ) * π / 24 = 2 * π - π / 24 := by ring
  rw [h1, h2, Real.sin_add, Real.sin_sub]
  simp [Real.sin_pi, Real.cos_pi, Real.sin_two_pi, Real.cos_two_pi]

/-- A valid, non-degenerate elliptical orbit: inclination 50 degrees,
argument of periapsis 350 degrees, node 15 degrees, true anomaly 10 degrees. -/
noncomputable def collisionKeplerA : KeplerianElements :=
  ⟨1.5e11, 0.1, 5 * π / 18, 35 * π / 18, π / 12, π / 18⟩

/-- A different valid orbit (argument of periapsis 185 degrees, node 180
degrees, true anomaly 340 degrees) with the same USMEM image as
`collisionKeplerA`. -/
noncomputable def collisionKeplerB : KeplerianElements :=
  ⟨1.5e11, 0.1, 5 * π / 18, 37 * π / 36, π, 17 * π / 9⟩

/-- `collisionKeplerA` satisfies every validity condition of claim C1. -/
theorem collisionKeplerA_valid : keplerianValid collisionKeplerA 1 := by
  unfold keplerianValid collisionKeplerA
  refine ⟨one_pos, by norm_num, by positivity, by nlinarith [pi_pos], ?_, ?_, ?_, ?_⟩
  · intro h; norm_num at h
  · intro h; exfalso; nlinarith [pi_pos]
  · intro h; norm_num at h
  · intro _; norm_num

/-- `collisionKeplerB` satisfies every validity condition of claim C1. -/
theorem collisionKeplerB_valid : keplerianValid collisionKeplerB 1 := by
  unfold keplerianValid collisionKeplerB
  refine ⟨one_pos, by norm_num, by positivity, by nlinarith [pi_pos], ?_, ?_, ?_, ?_⟩
  · intro h; norm_num at h
  · intro h; exfalso; nlinarith [pi_pos]
  · intro h; norm_num at h
  · intro _; norm_num

/-- The two distinct valid inputs have identical USMEM images: the
exponential-map components as pinned by the unit test (the quaternion vector
part) lose the sign of the quaternion scalar, so the forward conversion is
not injective on the claimed domain. -/
theorem collision_forward_eq :
    convertKeplerianToUnifiedStateModelWithExponentialMapElements collisionKeplerA 1 =
      convertKeplerianToUnifiedStateModelWithExponentialMapElements collisionKeplerB 1 := by
  have hiA : ¬(collisionKeplerA.inclination < 0 ∨ π < collisionKeplerA.inclination) := by
    unfold collisionKeplerA; push_neg
    constructor
    · positivity
    · nlinarith [pi_pos]
  have hiB : ¬(collisionKeplerB.inclination < 0 ∨ π < collisionKeplerB.inclination) := by
    unfold collisionKeplerB; push_neg
    constructor
    · positivity
    · nlinarith [pi_pos]
  have heA : ¬(collisionKeplerA.eccentricity = 0 ∧ collisionKeplerA.argumentOfPeriapsis ≠ 0) := by
    unfold collisionKeplerA; intro h; norm_num at h
  have heB : ¬(collisionKeplerB.eccentricity = 0 ∧ collisionKeplerB.argumentOfPeriapsis ≠ 0) := by
    unfold collisionKeplerB; intro h; norm_num at h
  have hnA : ¬(collisionKeplerA.inclination = 0 ∧ collisionKeplerA.longitudeOfAscendingNode ≠ 0) := by
    unfold collisionKeplerA; intro h; exact absurd h.1 (by positivity)
  have hnB : ¬(collisionKeplerB.inclination = 0 ∧ collisionKeplerB.longitudeOfAscendingNode ≠ 0) := by
    unfold collisionKeplerB; intro h; exact absurd h.1 (by positivity)
  unfold convertKeplerianToUnifiedStateModelWithExponentialMapElements
  rw [if_neg hiA, if_neg heA, if_neg hnA, if_neg hiB, if_neg heB, if_neg hnB]
  congr 1
  unfold kepToUsmemPayload kepCHodograph collisionKeplerA collisionKeplerB
  dsimp only
  simp only [USMEMElements.mk.injEq]
  refine ⟨trivial, ?_, ?_, ?_, ?_, ?_⟩
  · rw [show (π / 12 + 35 * π / 18 : ℝ) = π + 37 * π / 36 by ring]
  · rw [show (π / 12 + 35 * π / 18 : ℝ) = π + 37 * π / 36 by ring]
  · rw [show ((π / 12 - (35 * π / 18 + π / 18)) / 2 : ℝ) =
      (π - (37 * π / 36 + 17 * π / 9)) / 2 by ring]
  · rw [show ((π / 12 - (35 * π / 18 + π / 18)) / 2 : ℝ) =
      (π - (37 * π / 36 + 17 * π / 9)) / 2 by ring]
  · rw [show ((π / 12 + (35 * π / 18 + π / 18)) / 2 : ℝ) = 25 * π / 24 by ring,
      show ((π + (37 * π / 36 + 17 * π / 9)) / 2 : ℝ) = 47 * π / 24 by ring,
      sin_collision_angle]

/-- Counterexample to claim C1 as stated.  The forward conversion maps the
two distinct valid element sets `collisionKeplerA` and `collisionKeplerB`
(same orbit shape and inclination, different angular elements) to the same
USMEM element set, so the round-trip composition, being a function of that
common image, cannot return both inputs to within relative tolerance
`1e-14`: the universally quantified round-trip property is false. -/
theorem usmem_roundtrip_not_universal :
    ¬ (∀ (k : KeplerianElements) (mu : ℝ), keplerianValid k mu →
        ∃ kr, usmemRoundTrip k mu = Except.ok kr ∧ keplerianClose kr k) := by
  intro h
  obtain ⟨kr, hok, hclose⟩ := h collisionKeplerA 1 collisionKeplerA_valid
  obtain ⟨kr', hok', hclose'⟩ := h collisionKeplerB 1 collisionKeplerB_valid
  have heq : usmemRoundTrip collisionKeplerA 1 = usmemRoundTrip collisionKeplerB 1 := by
    unfold usmemRoundTrip
    rw [collision_forward_eq]
  rw [heq, hok'] at hok
  have hkr : kr' = kr := by
    injection hok
  subst hkr
  have c1 := hclose.2.2.2.2.1
  have c2 := hclose'.2.2.2.2.1
  unfold closeRel at c1 c2
  have hA : collisionKeplerA.longitudeOfAscendingNode = π / 12 := rfl
  have hB : collisionKeplerB.longitudeOfAscendingNode = π := rfl
  rw [hA] at c1
  rw [hB] at c2
  have hb1 : |kr'.longitudeOfAscendingNode - π / 12| ≤ 1e-14 * (π / 12 + 1) := by
    have habs1 : |π / 12| = π / 12 := abs_of_pos (by positivity)
    have habs2 : |π / 12 + 1| = π / 12 + 1 := abs_of_pos (by positivity)
    rcases c1 with c1 | c1
    · rw [habs1] at c1; nlinarith [pi_pos]
    · rw [habs2] at c1; linarith
  have hb2 : |kr'.longitudeOfAscendingNode - π| ≤ 1e-14 * (π + 1) := by
    have habs1 : |π| = π := abs_of_pos pi_pos
    have habs2 : |π + 1| = π + 1 := abs_of_pos (by positivity)
    rcases c2 with c2 | c2
    · rw [habs1] at c2; nlinarith [pi_pos]
    · rw [habs2] at c2; linarith
  have h1 := abs_le.mp hb1
  have h2 := abs_le.mp hb2
  have h3 := pi_gt_three
  have h4 := pi_lt_four
  linarith

/-- Norm of the hodograph pair: the radial velocity scale `e C` is recovered
exactly from `Rf1` and `Rf2`. -/
theorem hodograph_pair_norm (R s c : ℝ) (hsc : s ^ 2 + c ^ 2 = 1) :
    (-R * s) ^ 2 + (R * c) ^ 2 = R ^ 2 := by
  linear_combination R ^ 2 * hsc

/-- The recovered eccentricity of a forward payload equals the input
eccentricity. -/
theorem usmemEccentricity_payload (k : KeplerianElements) (mu : ℝ)
    (he : 0 ≤ k.eccentricity) (hC : 0 < kepCHodograph k mu) :
    usmemEccentricity (kepToUsmemPayload k mu) = k.eccentricity := by
  unfold usmemEccentricity kepToUsmemPayload
  dsimp only
  rw [hodograph_pair_norm _ _ _
      (Real.sin_sq_add_cos_sq (k.longitudeOfAscendingNode + k.argumentOfPeriapsis)),
    Real.sqrt_sq (mul_nonneg he hC.le),
    mul_div_assoc, div_self hC.ne', mul_one]

/-- The squared norm of the first two exponential-map components of a
forward payload is the squared sine of the half-inclination. -/
theorem payload_e12_sq (k : KeplerianElements) (mu : ℝ) :
    (kepToUsmemPayload k mu).e1 ^ 2 + (kepToUsmemPayload k mu).e2 ^ 2 =
      Real.sin (k.inclination / 2) ^ 2 := by
  unfold kepToUsmemPayload
  dsimp only
  linear_combination Real.sin (k.inclination / 2) ^ 2 *
    (Real.cos_sq_add_sin_sq
      ((k.longitudeOfAscendingNode - (k.argumentOfPeriapsis + k.trueAnomaly)) / 2))

/-- Claim C1 as amended: on every valid non-degenerate Keplerian input the
round trip succeeds and recovers the orbit shape and plane orientation
exactly: the semi-major axis (semi-latus rectum for parabolic inputs), the
eccentricity and the inclination come back unchanged.  (The angular elements
are not recovered in general: by `usmem_roundtrip_not_universal`, two valid
inputs differing in their angles share one USMEM image.) -/
theorem usmem_roundtrip_recovers_shape_elements (k : KeplerianElements) (mu : ℝ)
    (h : keplerianValid k mu) :
    ∃ kr, usmemRoundTrip k mu = Except.ok kr ∧
      kr.semiMajorAxis = k.semiMajorAxis ∧
      kr.eccentricity = k.eccentricity ∧
      kr.inclination = k.inclination := by
  obtain ⟨hmu, he0, hi0, hipi, hd1, hd2, hpar, hnonpar⟩ := h
  have hC : 0 < kepCHodograph k mu := by
    unfold kepCHodograph
    by_cases he1 : k.eccentricity = 1
    · rw [if_pos he1]
      exact Real.sqrt_pos.2 (div_pos hmu (hpar he1))
    · rw [if_neg he1]
      exact Real.sqrt_pos.2 (div_pos hmu (hnonpar he1))
  have hfwd : convertKeplerianToUnifiedStateModelWithExponentialMapElements k mu =
      Except.ok (kepToUsmemPayload k mu) := by
    unfold convertKeplerianToUnifiedStateModelWithExponentialMapElements
    rw [if_neg (by push_neg; exact ⟨hi0, hipi.le⟩),
      if_neg (fun hx => hx.2 (hd1 hx.1)),
      if_neg (fun hx => hx.2 (hd2 hx.1))]
  have hs0 : 0 ≤ Real.sin (k.inclination / 2) :=
    Real.sin_nonneg_of_nonneg_of_le_pi (by linarith) (by linarith [pi_pos])
  have hs1 : Real.sin (k.inclination / 2) < 1 := by
    have hmem1 : k.inclination / 2 ∈ Set.Icc (-(π / 2)) (π / 2) :=
      Set.mem_Icc.mpr ⟨by linarith [pi_pos], by linarith⟩
    have hmem2 : π / 2 ∈ Set.Icc (-(π / 2)) (π / 2) :=
      Set.mem_Icc.mpr ⟨by linarith [pi_pos], le_refl _⟩
    have := Real.strictMonoOn_sin hmem1 hmem2 (by linarith)
    simpa [Real.sin_pi_div_two] using this
  have hsqlt : (kepToUsmemPayload k mu).e1 ^ 2 + (kepToUsmemPayload k mu).e2 ^ 2 < 1 := by
    rw [payload_e12_sq]
    nlinarith [hs0, hs1]
  have hinv : convertUnifiedStateModelWithExponentialMapToKeplerianElements
      (kepToUsmemPayload k mu) mu =
        Except.ok (usmemToKepPayload (kepToUsmemPayload k mu) mu) := by
    unfold convertUnifiedStateModelWithExponentialMapToKeplerianElements
    rw [if_neg (not_le.2 hsqlt)]
  have hecc : usmemEccentricity (kepToUsmemPayload k mu) = k.eccentricity :=
    usmemEccentricity_payload k mu he0 hC
  have hCe : (kepToUsmemPayload k mu).CHodograph = kepCHodograph k mu := rfl
  refine ⟨usmemToKepPayload (kepToUsmemPayload k mu) mu, ?_, ?_, ?_, ?_⟩
  · unfold usmemRoundTrip
    rw [hfwd]
    exact hinv
  · show (if usmemEccentricity (kepToUsmemPayload k mu) = 1 then
        mu / (kepToUsmemPayload k mu).CHodograph ^ 2
      else mu / ((kepToUsmemPayload k mu).CHodograph ^ 2 *
        (1 - usmemEccentricity (kepToUsmemPayload k mu) ^ 2))) = k.semiMajorAxis
    rw [hecc, hCe]
    by_cases he1 : k.eccentricity = 1
    · rw [if_pos he1]
      have hpos : 0 < k.semiMajorAxis := hpar he1
      have hCsq : kepCHodograph k mu ^ 2 = mu / k.semiMajorAxis := by
        unfold kepCHodograph
        rw [if_pos he1, Real.sq_sqrt (div_pos hmu hpos).le]
      rw [hCsq]
      field_simp
    · rw [if_neg he1]
      have hXpos : 0 < k.semiMajorAxis * (1 - k.eccentricity ^ 2) := hnonpar he1
      have hCsq : kepCHodograph k mu ^ 2 =
          mu / (k.semiMajorAxis * (1 - k.eccentricity ^ 2)) := by
        unfold kepCHodograph
        rw [if_neg he1, Real.sq_sqrt (div_pos hmu hXpos).le]
      rw [hCsq]
      have h1e : (1 : ℝ) - k.eccentricity ^ 2 ≠ 0 := by
        intro hz
        rw [hz, mul_zero] at hXpos
        exact lt_irrefl 0 hXpos
      have ha : k.semiMajorAxis ≠ 0 := by
        intro hz
        rw [hz, zero_mul] at hXpos
        exact lt_irrefl 0 hXpos
      field_simp
      ring
  · exact hecc
  · show 2 * Real.arcsin (Real.sqrt
        ((kepToUsmemPayload k mu).e1 ^ 2 + (kepToUsmemPayload k mu).e2 ^ 2)) =
      k.inclination
    rw [payload_e12_sq, Real.sqrt_sq hs0,
      Real.arcsin_sin (by linarith [pi_pos]) (by linarith)]
    ring

/-- Witness for the amended claim C1 at a concrete valid input. -/
theorem usmem_roundtrip_recovers_shape_elements_witness :
    keplerianValid ⟨2, 1/2, 1, 1, 1, 1⟩ 1 ∧
      ∃ kr, usmemRoundTrip ⟨2, 1/2, 1, 1, 1, 1⟩ 1 = Except.ok kr ∧
        kr.semiMajorAxis = (⟨2, 1/2, 1, 1, 1, 1⟩ : KeplerianElements).semiMajorAxis ∧
        kr.eccentricity = (⟨2, 1/2, 1, 1, 1, 1⟩ : KeplerianElements).eccentricity ∧
        kr.inclination = (⟨2, 1/2, 1, 1, 1, 1⟩ : KeplerianElements).inclination := by
  have hv : keplerianValid ⟨2, 1/2, 1, 1, 1, 1⟩ 1 := by
    unfold keplerianValid
    refine ⟨one_pos, by norm_num, by norm_num, ?_, ?_, ?_, ?_, ?_⟩
    · have := pi_gt_three; norm_num; linarith
    · intro hx; norm_num at hx
    · intro hx; norm_num at hx
    · intro hx; norm_num at hx
    · intro _; norm_num
  exact ⟨hv, usmem_roundtrip_recovers_shape_elements _ _ hv⟩

/-! ## Certified numeric bounds on sine and cosine

The concrete element values asserted by the unit test require certified
numeric values of `sin` and `cos` at pi-rational angles to about `1e-15`.
The machinery: cubic Taylor bounds (`Real.sin_bound`, `Real.cos_bound`) at
the angle divided by `3^9`, then nine exact triple-angle steps with interval
endpoints propagated through the cubics. -/

/-- Taylor interval for `sin` on a bracketed small non-negative angle. -/
theorem sin_interval_base (lo hi : ℝ) {x l u : ℝ}
    (hl : l ≤ x) (hu : x ≤ u) (h0 : 0 ≤ l) (h1 : u ≤ 1)
    (e1 : lo ≤ l - l ^ 3 / 6 - u ^ 4 * (5 / 96))
    (e2 : u - u ^ 3 / 6 + u ^ 4 * (5 / 96) ≤ hi) :
    lo ≤ Real.sin x ∧ Real.sin x ≤ hi := by
  have hx0 : 0 ≤ x := le_trans h0 hl
  have habs : |x| ≤ 1 := abs_le.mpr ⟨by linarith, by linarith⟩
  have hb := abs_le.mp (Real.sin_bound habs)
  rw [abs_of_nonneg hx0] at hb
  have hx4 : x ^ 4 ≤ u ^ 4 := pow_le_pow_left₀ hx0 hu 4
  have hx1 : x ≤ 1 := le_trans hu h1
  have hl1 : l ≤ 1 := le_trans hl hx1
  have hq1 : x ^ 2 + x * l + l ^ 2 ≤ 3 := by nlinarith
  have hq2 : x ^ 2 + x * u + u ^ 2 ≤ 3 := by nlinarith
  have hf1 : 0 ≤ (x - l) * (1 - (x ^ 2 + x * l + l ^ 2) / 6) :=
    mul_nonneg (by linarith) (by linarith)
  have hf2 : 0 ≤ (u - x) * (1 - (x ^ 2 + x * u + u ^ 2) / 6) :=
    mul_nonneg (by linarith) (by linarith)
  constructor
  · nlinarith [hb.1]
  · nlinarith [hb.2]

/-- Taylor interval for `cos` on a bracketed small non-negative angle. -/
theorem cos_interval_base (lo hi : ℝ) {x l u : ℝ}
    (hl : l ≤ x) (hu : x ≤ u) (h0 : 0 ≤ l) (h1 : u ≤ 1)
    (e1 : lo ≤ 1 - u ^ 2 / 2 - u ^ 4 * (5 / 96))
    (e2 : 1 - l ^ 2 / 2 + u ^ 4 * (5 / 96) ≤ hi) :
    lo ≤ Real.cos x ∧ Real.cos x ≤ hi := by
  have hx0 : 0 ≤ x := le_trans h0 hl
  have habs : |x| ≤ 1 := abs_le.mpr ⟨by linarith, by linarith⟩
  have hb := abs_le.mp (Real.cos_bound habs)
  rw [abs_of_nonneg hx0] at hb
  have hx4 : x ^ 4 ≤ u ^ 4 := pow_le_pow_left₀ hx0 hu 4
  have hsq1 : l ^ 2 ≤ x ^ 2 := pow_le_pow_left₀ h0 hl 2
  have hsq2 : x ^ 2 ≤ u ^ 2 := pow_le_pow_left₀ hx0 hu 2
  constructor
  · nlinarith [hb.1]
  · nlinarith [hb.2]

/-- Exact triple-angle interval step for `sin` (valid while the sine stays in
`[0, 1/2]`, where `3 t - 4 t^3` is monotone). -/
theorem sin_triple_step (lo' hi' : ℝ) {x lo hi : ℝ}
    (h1 : lo ≤ Real.sin x) (h2 : Real.sin x ≤ hi)
    (h0 : 0 ≤ lo) (hh : hi ≤ 1 / 2)
    (e1 : lo' ≤ 3 * lo - 4 * lo ^ 3) (e2 : 3 * hi - 4 * hi ^ 3 ≤ hi') :
    lo' ≤ Real.sin (3 * x) ∧ Real.sin (3 * x) ≤ hi' := by
  rw [Real.sin_three_mul]
  have hs0 : 0 ≤ Real.sin x := le_trans h0 h1
  have hsh : Real.sin x ≤ 1 / 2 := le_trans h2 hh
  have hhi0 : 0 ≤ hi := le_trans hs0 h2
  have hq1 : Real.sin x ^ 2 + Real.sin x * lo + lo ^ 2 ≤ 3 / 4 := by nlinarith
  have hq2 : hi ^ 2 + hi * Real.sin x + Real.sin x ^ 2 ≤ 3 / 4 := by nlinarith
  have hf1 : 0 ≤ (Real.sin x - lo) *
      (3 - 4 * (Real.sin x ^ 2 + Real.sin x * lo + lo ^ 2)) :=
    mul_nonneg (by linarith) (by linarith)
  have hf2 : 0 ≤ (hi - Real.sin x) *
      (3 - 4 * (hi ^ 2 + hi * Real.sin x + Real.sin x ^ 2)) :=
    mul_nonneg (by linarith) (by linarith)
  constructor
  · nlinarith
  · nlinarith

/-- Exact triple-angle interval step for `cos` (valid while the cosine stays
in `[1/2, 1]`, where `4 t^3 - 3 t` is monotone). -/
theorem cos_triple_step (lo' hi' : ℝ) {x lo hi : ℝ}
    (h1 : lo ≤ Real.cos x) (h2 : Real.cos x ≤ hi)
    (h0 : 1 / 2 ≤ lo) (hh : hi ≤ 1)
    (e1 : lo' ≤ 4 * lo ^ 3 - 3 * lo) (e2 : 4 * hi ^ 3 - 3 * hi ≤ hi') :
    lo' ≤ Real.cos (3 * x) ∧ Real.cos (3 * x) ≤ hi' := by
  rw [Real.cos_three_mul]
  have hc0 : 1 / 2 ≤ Real.cos x := le_trans h0 h1
  have hch : Real.cos x ≤ 1 := le_trans h2 hh
  have hq1 : 3 / 4 ≤ Real.cos x ^ 2 + Real.cos x * lo + lo ^ 2 := by nlinarith
  have hq2 : 3 / 4 ≤ hi ^ 2 + hi * Real.cos x + Real.cos x ^ 2 := by nlinarith
  have hf1 : 0 ≤ (Real.cos x - lo) *
      (4 * (Real.cos x ^ 2 + Real.cos x * lo + lo ^ 2) - 3) :=
    mul_nonneg (by linarith) (by linarith)
  have hf2 : 0 ≤ (hi - Real.cos x) *
      (4 * (hi ^ 2 + hi * Real.cos x + Real.cos x ^ 2) - 3) :=
    mul_nonneg (by linarith) (by linarith)
  constructor
  · nlinarith
  · nlinarith

/-- Interval product bound for non-negative intervals. -/
theorem prod_bounds {x y a b c d : ℝ} (h1 : a ≤ x) (h2 : x ≤ b) (h3 : c ≤ y)
    (h4 : y ≤ d) (ha : 0 ≤ a) (hc : 0 ≤ c) : a * c ≤ x * y ∧ x * y ≤ b * d :=
  ⟨mul_le_mul h1 h3 hc (le_trans ha h1),
    mul_le_mul h2 h4 (le_trans hc h3) (le_trans (le_trans ha h1) h2)⟩
/-- Certified interval for `Real.sin (π / 36)`: cubic Taylor bounds at
the angle over `3 ^ 12`, then 12 exact triple-angle steps. -/
theorem sin_pi_div_36_bounds :
    (0.087155742747658173557971075109301227357 : ℝ) ≤ Real.sin (π / 36) ∧
      Real.sin (π / 36) ≤ 0.087155742747658173558287891513614301633 := by
  have hxl : (0.000000164207245206366236037699596213147105908484876 : ℝ) ≤ π / 19131876 := by
    linarith [Real.pi_gt_d20]
  have hxu : π / 19131876 ≤ (0.000000164207245206366236038222284108469028337837858 : ℝ) := by
    linarith [Real.pi_lt_d20]
  have h0 := sin_interval_base 0.00000016420724520636549808977142929852724297 0.00000016420724520636549809036985243770659375 hxl hxu (by norm_num) (by norm_num)
    (by norm_num) (by norm_num)
  have h1 := sin_triple_step 0.00000049262173561907878351994710510977074996 0.00000049262173561907878352174237452730860868 h0.1 h0.2 (by norm_num)
    (by norm_num) (by norm_num) (by norm_num)
  rw [show (3 : ℝ) * (π / 19131876) = π / 6377292 by ring] at h1
  have h2 := sin_triple_step 0.0000014778652068567581603269274316881386455 0.0000014778652068567581603323132399407469937 h1.1 h1.2 (by norm_num)
    (by norm_num) (by norm_num) (by norm_num)
  rw [show (3 : ℝ) * (π / 6377292) = π / 2125764 by ring] at h2
  have h3 := sin_triple_step 0.0000044335956205573633446921199696533756110 0.0000044335956205573633447082773944110594989 h2.1 h2.2 (by norm_num)
    (by norm_num) (by norm_num) (by norm_num)
  rw [show (3 : ℝ) * (π / 2125764) = π / 708588 by ring] at h3
  have h4 := sin_triple_step 0.000013300786861323489354285522617719244119 0.000013300786861323489354333994891988484550 h3.1 h3.2 (by norm_num)
    (by norm_num) (by norm_num) (by norm_num)
  rw [show (3 : ℝ) * (π / 708588) = π / 236196 by ring] at h4
  have h5 := sin_triple_step 0.000039902360574558249709244016239926958581 0.000039902360574558249709389433062631776573 h4.1 h4.2 (by norm_num)
    (by norm_num) (by norm_num) (by norm_num)
  rw [show (3 : ℝ) * (π / 236196) = π / 78732 by ring] at h5
  have h6 := sin_triple_step 0.00011970708146954485376002658091763107234 0.00011970708146954485376046283138296713717 h5.1 h5.2 (by norm_num)
    (by norm_num) (by norm_num) (by norm_num)
  rw [show (3 : ℝ) * (π / 78732) = π / 26244 by ring] at h6
  have h7 := sin_triple_step 0.00035912123754712743005155443657688431005 0.00035912123754712743005286318789787599821 h6.1 h6.2 (by norm_num)
    (by norm_num) (by norm_num) (by norm_num)
  rw [show (3 : ℝ) * (π / 26244) = π / 8748 by ring] at h7
  have h8 := sin_triple_step 0.0010773635273807003659681118282813207653 0.0010773635273807003659720380802188503520 h7.1 h7.2 (by norm_num)
    (by norm_num) (by norm_num) (by norm_num)
  rw [show (3 : ℝ) * (π / 8748) = π / 2916 by ring] at h8
  have h9 := sin_triple_step 0.0032320855801062695572490388071775890656 0.0032320855801062695572608175083031969432 h8.1 h8.2 (by norm_num)
    (by norm_num) (by norm_num) (by norm_num)
  rw [show (3 : ℝ) * (π / 2916) = π / 972 by ring] at h9
  have h10 := sin_triple_step 0.0096961216859783958810680942044480169251 0.0096961216859783958811034288312877823535 h9.1 h9.2 (by norm_num)
    (by norm_num) (by norm_num) (by norm_num)
  rw [show (3 : ℝ) * (π / 972) = π / 324 by ring] at h10
  have h11 := sin_triple_step 0.029084718743111406888546579299040741748 0.029084718743111406888652543315835815725 h10.1 h10.2 (by norm_num)
    (by norm_num) (by norm_num) (by norm_num)
  rw [show (3 : ℝ) * (π / 324) = π / 108 by ring] at h11
  have h12 := sin_triple_step 0.087155742747658173557971075109301227357 0.087155742747658173558287891513614301633 h11.1 h11.2 (by norm_num)
    (by norm_num) (by norm_num) (by norm_num)
  rw [show (3 : ℝ) * (π / 108) = π / 36 by ring] at h12
  exact h12

/-- Certified interval for `Real.cos (π / 36)`: cubic Taylor bounds at
the angle over `3 ^ 12`, then 12 exact triple-angle steps. -/
theorem cos_pi_div_36_bounds :
    (0.99619469809174551306853442885142386948 : ℝ) ≤ Real.cos (π / 36) ∧
      Real.cos (π / 36) ≤ 0.99619469809174553443128993419818828035 := by
  have hxl : (0.000000164207245206366236037699596213147105908484876 : ℝ) ≤ π / 19131876 := by
    linarith [Real.pi_gt_d20]
  have hxu : π / 19131876 ≤ (0.000000164207245206366236038222284108469028337837858 : ℝ) := by
    linarith [Real.pi_lt_d20]
  have h0 := cos_interval_base 0.99999999999998651799031086811853022836 0.99999999999998651799031086819426555806 hxl hxu (by norm_num) (by norm_num)
    (by norm_num) (by norm_num)
  have h1 := cos_triple_step 0.99999999999987866191279781524794707833 0.99999999999987866191279781592956504564 h0.1 h0.2 (by norm_num)
    (by norm_num) (by norm_num) (by norm_num)
  rw [show (3 : ℝ) * (π / 19131876) = π / 6377292 by ring] at h1
  have h2 := cos_triple_step 0.99999999999890795721518051390670057558 0.99999999999890795721518052004126228138 h1.1 h1.2 (by norm_num)
    (by norm_num) (by norm_num) (by norm_num)
  rw [show (3 : ℝ) * (π / 6377292) = π / 2125764 by ring] at h2
  have h3 := cos_triple_step 0.99999999999017161493663893584963169059 0.99999999999017161493663899106068704264 h2.1 h2.2 (by norm_num)
    (by norm_num) (by norm_num) (by norm_num)
  rw [show (3 : ℝ) * (π / 2125764) = π / 708588 by ring] at h3
  have h4 := cos_triple_step 0.99999999991154453443090958848212580416 0.99999999991154453443091008538162395959 h3.1 h3.2 (by norm_num)
    (by norm_num) (by norm_num) (by norm_num)
  rw [show (3 : ℝ) * (π / 708588) = π / 236196 by ring] at h4
  have h5 := cos_triple_step 0.99999999920390080997207872900489827584 0.99999999920390080997208320110038061984 h4.1 h4.2 (by norm_num)
    (by norm_num) (by norm_num) (by norm_num)
  rw [show (3 : ℝ) * (π / 236196) = π / 78732 by ring] at h5
  have h6 := cos_triple_step 0.99999999283510729735399560338324449327 0.99999999283510729735403585224250014372 h5.1 h5.2 (by norm_num)
    (by norm_num) (by norm_num) (by norm_num)
  rw [show (3 : ℝ) * (π / 78732) = π / 26244 by ring] at h6
  have h7 := cos_triple_step 0.99999993551596629221420824435001326612 0.99999993551596629221457048407639303002 h6.1 h6.2 (by norm_num)
    (by norm_num) (by norm_num) (by norm_num)
  rw [show (3 : ℝ) * (π / 26244) = π / 8748 by ring] at h7
  have h8 := cos_triple_step 0.99999941964374652821404037378850346847 0.99999941964374652821730053076531307223 h7.1 h7.2 (by norm_num)
    (by norm_num) (by norm_num) (by norm_num)
  rw [show (3 : ℝ) * (π / 8748) = π / 2916 by ring] at h8
  have h9 := cos_triple_step 0.99999477679776051371580205103426739854 0.99999477679776051374514341841630727818 h8.1 h8.2 (by norm_num)
    (by norm_num) (by norm_num) (by norm_num)
  rw [show (3 : ℝ) * (π / 2916) = π / 972 by ring] at h9
  have h10 := cos_triple_step 0.99995299150722615306280758176023233580 0.99995299150722615332687621006669742399 h9.1 h9.2 (by norm_num)
    (by norm_num) (by norm_num) (by norm_num)
  rw [show (3 : ℝ) * (π / 972) = π / 324 by ring] at h10
  have h11 := cos_triple_step 0.99957695008220057482397344158783342842 0.99957695008220057720029318011154732895 h10.1 h10.2 (by norm_num)
    (by norm_num) (by norm_num) (by norm_num)
  rw [show (3 : ℝ) * (π / 324) = π / 108 by ring] at h11
  have h12 := cos_triple_step 0.99619469809174551306853442885142386948 0.99619469809174553443128993419818828035 h11.1 h11.2 (by norm_num)
    (by norm_num) (by norm_num) (by norm_num)
  rw [show (3 : ℝ) * (π / 108) = π / 36 by ring] at h12
  exact h12

/-- Certified interval for `Real.sin (7 * π / 72)`: cubic Taylor bounds at
the angle over `3 ^ 12`, then 12 exact triple-angle steps. -/
theorem sin_7pi_div_72_bounds :
    (0.30070579950427312161942188685502066196 : ℝ) ≤ Real.sin (7 * π / 72) ∧
      Real.sin (7 * π / 72) ≤ 0.30070579950427312162610940717713438522 := by
  have hxl : (0.000000574725358222281826131948586746014870679697066 : ℝ) ≤ 7 * π / 38263752 := by
    linarith [Real.pi_gt_d20]
  have hxu : 7 * π / 38263752 ≤ (0.000000574725358222281826133777994379641599182432502 : ℝ) := by
    linarith [Real.pi_lt_d20]
  have h0 := sin_interval_base 0.00000057472535822225018661046949455620382020 0.00000057472535822225018662366392222118664317 hxl hxu (by norm_num) (by norm_num)
    (by norm_num) (by norm_num)
  have h1 := sin_triple_step 0.0000017241760746659912114522906368993375397 0.0000017241760746659912114918739198942337098 h0.1 h0.2 (by norm_num)
    (by norm_num) (by norm_num) (by norm_num)
  rw [show (3 : ℝ) * (7 * π / 38263752) = 7 * π / 12754584 by ring] at h1
  have h2 := sin_triple_step 0.0000051725282239774712281207171364642903585 0.0000051725282239774712282394669854475667987 h1.1 h1.2 (by norm_num)
    (by norm_num) (by norm_num) (by norm_num)
  rw [show (3 : ℝ) * (7 * π / 12754584) = 7 * π / 4251528 by ring] at h2
  have h3 := sin_triple_step 0.000015517584671378848715992555019494018063 0.000015517584671378848716348804566405721490 h2.1 h2.2 (by norm_num)
    (by norm_num) (by norm_num) (by norm_num)
  rw [show (3 : ℝ) * (7 * π / 4251528) = 7 * π / 1417176 by ring] at h3
  have h4 := sin_triple_step 0.000046552753999190292003598113533161070415 0.000046552753999190292004666862172866781525 h3.1 h3.2 (by norm_num)
    (by norm_num) (by norm_num) (by norm_num)
  rw [show (3 : ℝ) * (7 * π / 1417176) = 7 * π / 472392 by ring] at h4
  have h5 := sin_triple_step 0.00013965826159402201450123734270893518067 0.00013965826159402201450444358860025853643 h4.1 h4.2 (by norm_num)
    (by norm_num) (by norm_num) (by norm_num)
  rw [show (3 : ℝ) * (7 * π / 472392) = 7 * π / 157464 by ring] at h5
  have h6 := sin_triple_step 0.00041897477388624687719755976108770487215 0.00041897477388624687720717849801124295562 h5.1 h5.2 (by norm_num)
    (by norm_num) (by norm_num) (by norm_num)
  rw [show (3 : ℝ) * (7 * π / 157464) = 7 * π / 52488 by ring] at h6
  have h7 := sin_triple_step 0.0012569240274716460931341681788625626176 0.0012569240274716460931630243693715159398 h6.1 h6.2 (by norm_num)
    (by norm_num) (by norm_num) (by norm_num)
  rw [show (3 : ℝ) * (7 * π / 52488) = 7 * π / 17496 by ring] at h7
  have h8 := sin_triple_step 0.0037707641393689630283839786889622519103 0.0037707641393689630284705467134249070238 h7.1 h7.2 (by norm_num)
    (by norm_num) (by norm_num) (by norm_num)
  rw [show (3 : ℝ) * (7 * π / 17496) = 7 * π / 5832 by ring] at h8
  have h9 := sin_triple_step 0.011312077957220834012747066783931589112 0.011312077957220834013006756086741594036 h8.1 h8.2 (by norm_num)
    (by norm_num) (by norm_num) (by norm_num)
  rw [show (3 : ℝ) * (7 * π / 5832) = 7 * π / 1944 by ring] at h9
  have h10 := sin_triple_step 0.033930443757062236046395187076457533384 0.033930443757062236047173856217084828067 h9.1 h9.2 (by norm_num)
    (by norm_num) (by norm_num) (by norm_num)
  rw [show (3 : ℝ) * (7 * π / 1944) = 7 * π / 648 by ring] at h10
  have h11 := sin_triple_step 0.10163507818280187284919572610855337053 0.10163507818280187285152097598253012385 h10.1 h10.2 (by norm_num)
    (by norm_num) (by norm_num) (by norm_num)
  rw [show (3 : ℝ) * (7 * π / 648) = 7 * π / 216 by ring] at h11
  have h12 := sin_triple_step 0.30070579950427312161942188685502066196 0.30070579950427312162610940717713438522 h11.1 h11.2 (by norm_num)
    (by norm_num) (by norm_num) (by norm_num)
  rw [show (3 : ℝ) * (7 * π / 216) = 7 * π / 72 by ring] at h12
  exact h12

/-- Certified interval for `Real.cos (7 * π / 72)`: cubic Taylor bounds at
the angle over `3 ^ 12`, then 12 exact triple-angle steps. -/
theorem cos_7pi_div_72_bounds :
    (0.95371695074822407701512017580886496556 : ℝ) ≤ Real.cos (7 * π / 72) ∧
      Real.cos (7 * π / 72) ≤ 0.95371695074822723715820343645794324749 := by
  have hxl : (0.000000574725358222281826131948586746014870679697066 : ℝ) ≤ 7 * π / 38263752 := by
    linarith [Real.pi_gt_d20]
  have hxu : 7 * π / 38263752 ≤ (0.000000574725358222281826133777994379641599182432502 : ℝ) := by
    linarith [Real.pi_lt_d20]
  have h0 := cos_interval_base 0.99999999999983484538130812923336365040 0.99999999999983484538130814059838473317 hxl hxu (by norm_num) (by norm_num)
    (by norm_num) (by norm_num)
  have h1 := cos_triple_step 0.99999999999851360843177349041284975666 0.99999999999851360843177359269803950156 h0.1 h0.2 (by norm_num)
    (by norm_num) (by norm_num) (by norm_num)
  rw [show (3 : ℝ) * (7 * π / 38263752) = 7 * π / 12754584 by ring] at h1
  have h2 := cos_triple_step 0.99999999998662247588598792603437693515 0.99999999998662247588598884660108463561 h1.1 h1.2 (by norm_num)
    (by norm_num) (by norm_num) (by norm_num)
  rw [show (3 : ℝ) * (7 * π / 12754584) = 7 * π / 4251528 by ring] at h2
  have h3 := cos_triple_step 0.99999999987960228297603883212643453457 0.99999999987960228297604711722680354316 h2.1 h2.2 (by norm_num)
    (by norm_num) (by norm_num) (by norm_num)
  rw [show (3 : ℝ) * (7 * π / 4251528) = 7 * π / 1417176 by ring] at h3
  have h4 := cos_triple_step 0.99999999891642054695829681230591180341 0.99999999891642054695837137820920894056 h3.1 h3.2 (by norm_num)
    (by norm_num) (by norm_num) (by norm_num)
  rw [show (3 : ℝ) * (7 * π / 1417176) = 7 * π / 472392 by ring] at h4
  have h5 := cos_triple_step 0.99999999024778493671440447831397083257 0.99999999024778493671507557144170591299 h4.1 h4.2 (by norm_num)
    (by norm_num) (by norm_num) (by norm_num)
  rw [show (3 : ℝ) * (7 * π / 472392) = 7 * π / 157464 by ring] at h5
  have h6 := cos_triple_step 0.99999991223006557169802028175449233874 0.99999991223006557170406011974703659508 h5.1 h5.2 (by norm_num)
    (by norm_num) (by norm_num) (by norm_num)
  rw [show (3 : ℝ) * (7 * π / 157464) = 7 * π / 52488 by ring] at h6
  have h7 := cos_triple_step 0.99999921007068258801615255262833865556 0.99999921007068258807051108183844909145 h6.1 h6.2 (by norm_num)
    (by norm_num) (by norm_num) (by norm_num)
  rw [show (3 : ℝ) * (7 * π / 52488) = 7 * π / 17496 by ring] at h7
  have h8 := cos_triple_step 0.99999289064363115009182983506381919729 0.99999289064363115058105556740971916232 h7.1 h7.2 (by norm_num)
    (by norm_num) (by norm_num) (by norm_num)
  rw [show (3 : ℝ) * (7 * π / 17496) = 7 * π / 5832 by ring] at h8
  have h9 := cos_triple_step 0.99993601639919428926683306561749339403 0.99993601639919429366978118310549060504 h8.1 h8.2 (by norm_num)
    (by norm_num) (by norm_num) (by norm_num)
  rw [show (3 : ℝ) * (7 * π / 5832) = 7 * π / 1944 by ring] at h9
  have h10 := cos_triple_step 0.99942419671851489802273814332772265153 0.99942419671851493764251022162928870615 h9.1 h9.2 (by norm_num)
    (by norm_num) (by norm_num) (by norm_num)
  rw [show (3 : ℝ) * (7 * π / 1944) = 7 * π / 648 by ring] at h10
  have h11 := cos_triple_step 0.99482174829603273667627802238228550887 0.99482174829603309270686768346027712299 h10.1 h10.2 (by norm_num)
    (by norm_num) (by norm_num) (by norm_num)
  rw [show (3 : ℝ) * (7 * π / 648) = 7 * π / 216 by ring] at h11
  have h12 := cos_triple_step 0.95371695074822407701512017580886496556 0.95371695074822723715820343645794324749 h11.1 h11.2 (by norm_num)
    (by norm_num) (by norm_num) (by norm_num)
  rw [show (3 : ℝ) * (7 * π / 216) = 7 * π / 72 by ring] at h12
  exact h12


/-- Certified interval for the `C` hodograph value of the 180-degree
inclination anchor case. -/
theorem CHodograph_anchor_bounds :
    (29894.5892222602176982122635221 : ℝ) ≤
        Real.sqrt (1.32712440018e20 / (1.5e11 * (1 - 0.1 ^ 2))) ∧
      Real.sqrt (1.32712440018e20 / (1.5e11 * (1 - 0.1 ^ 2))) ≤
        29894.5892222602176982122635222 := by
  constructor
  · exact Real.le_sqrt_of_sq_le (by norm_num)
  · exact Real.sqrt_le_iff.mpr ⟨by norm_num, by norm_num⟩

/-- Angle reduction: the hodograph angle of the anchor case is `5` degrees
modulo a full turn. -/
theorem anchor_sin_angle : Real.sin (π / 12 + 35 * π / 18) = Real.sin (π / 36) := by
  rw [show (π / 12 + 35 * π / 18 : ℝ) = π / 36 + 2 * π by ring, Real.sin_add_two_pi]

/-- Angle reduction for the cosine of the hodograph angle. -/
theorem anchor_cos_angle : Real.cos (π / 12 + 35 * π / 18) = Real.cos (π / 36) := by
  rw [show (π / 12 + 35 * π / 18 : ℝ) = π / 36 + 2 * π by ring, Real.cos_add_two_pi]

/-- Angle reduction: the `e1` angle of the anchor case reduces to minus the
sine of `17.5` degrees. -/
theorem anchor_e1_angle :
    Real.cos ((π / 12 - (35 * π / 18 + 17 * π / 18)) / 2) = -Real.sin (7 * π / 72) := by
  have h29 : Real.cos (29 * π / 72) = Real.sin (7 * π / 72) := by
    rw [show (29 * π / 72 : ℝ) = π / 2 - 7 * π / 72 by ring, Real.cos_pi_div_two_sub]
  rw [show ((π / 12 - (35 * π / 18 + 17 * π / 18)) / 2 : ℝ) = -(π + 29 * π / 72) by ring,
    Real.cos_neg, Real.cos_add]
  simp [Real.cos_pi, Real.sin_pi, h29]

/-- Angle reduction: the `e2` angle of the anchor case reduces to the cosine
of `17.5` degrees. -/
theorem anchor_e2_angle :
    Real.sin ((π / 12 - (35 * π / 18 + 17 * π / 18)) / 2) = Real.cos (7 * π / 72) := by
  have h29 : Real.sin (29 * π / 72) = Real.cos (7 * π / 72) := by
    rw [show (29 * π / 72 : ℝ) = π / 2 - 7 * π / 72 by ring, Real.sin_pi_div_two_sub]
  rw [show ((π / 12 - (35 * π / 18 + 17 * π / 18)) / 2 : ℝ) = -(π + 29 * π / 72) by ring,
    Real.sin_neg, Real.sin_add]
  simp [Real.cos_pi, Real.sin_pi, h29]

/-! ## Claim C3: the 180-degree inclination boundary -/

/-- Counterexample to claim C3 as stated.  The claimed input has true anomaly
10 degrees, but the unit-test case it reflects runs with true anomaly 170
degrees (the test mutates its Keplerian state across cases): at the claimed
input the `e2` component is negative (it equals `sin(-23 pi/24) < 0`), far
from the claimed `0.953716951`, under both the relative and the
additive-offset comparison; the claimed constants are also rounded to fewer
digits than relative tolerance `1e-14` resolves. -/
theorem usmem_inclination_pi_anchor_counterexample :
    ¬ ((∀ (k : KeplerianElements) (mu : ℝ), 0 ≤ k.eccentricity →
          (k.eccentricity = 0 → k.argumentOfPeriapsis = 0) → k.inclination = π →
          ∃ u, convertKeplerianToUnifiedStateModelWithExponentialMapElements k mu =
            Except.ok u) ∧
        (∃ u, convertKeplerianToUnifiedStateModelWithExponentialMapElements
              ⟨1.5e11, 0.1, π, 35 * π / 18, π / 12, π / 18⟩ 1.32712440018e20 =
            Except.ok u ∧
          closeRel u.CHodograph 29894.589222 ∧
          closeRel u.Rf1Hodograph (-260.548513) ∧
          closeRel u.Rf2Hodograph 2978.083128 ∧
          closeRel u.e1 (-0.300705800) ∧
          closeRel u.e2 0.953716951 ∧
          closeRel u.e3 0)) := by
  rintro ⟨-, u, hu, -, -, -, -, he2, -⟩
  have hok : convertKeplerianToUnifiedStateModelWithExponentialMapElements
      ⟨1.5e11, 0.1, π, 35 * π / 18, π / 12, π / 18⟩ 1.32712440018e20 =
      Except.ok (kepToUsmemPayload
        ⟨1.5e11, 0.1, π, 35 * π / 18, π / 12, π / 18⟩ 1.32712440018e20) := by
    unfold convertKeplerianToUnifiedStateModelWithExponentialMapElements
    rw [if_neg, if_neg, if_neg]
    · rintro ⟨h1, -⟩
      exact pi_ne_zero h1
    · rintro ⟨h1, -⟩
      norm_num at h1
    · rintro (h1 | h1)
      · exact absurd h1 (not_lt.2 pi_pos.le)
      · exact lt_irrefl π h1
  rw [hok] at hu
  have hueq : u = kepToUsmemPayload
      ⟨1.5e11, 0.1, π, 35 * π / 18, π / 12, π / 18⟩ 1.32712440018e20 := by
    injection hu.symm
  subst hueq
  have he2v : (kepToUsmemPayload
      ⟨1.5e11, 0.1, π, 35 * π / 18, π / 12, π / 18⟩ 1.32712440018e20).e2 =
      -Real.sin (23 * π / 24) := by
    show Real.sin (π / 2) * Real.sin ((π / 12 - (35 * π / 18 + π / 18)) / 2) =
      -Real.sin (23 * π / 24)
    rw [Real.sin_pi_div_two, one_mul,
      show ((π / 12 - (35 * π / 18 + π / 18)) / 2 : ℝ) = -(23 * π / 24) by ring,
      Real.sin_neg]
  rw [he2v] at he2
  have hpos : 0 < Real.sin (23 * π / 24) :=
    Real.sin_pos_of_pos_of_lt_pi (by positivity) (by nlinarith [pi_pos])
  have habs1 : |(0.953716951 : ℝ)| = 0.953716951 := abs_of_pos (by norm_num)
  have habs2 : |(0.953716951 : ℝ) + 1| = 0.953716951 + 1 := abs_of_pos (by norm_num)
  rcases he2 with hb | hb
  · rw [habs1] at hb
    have := abs_le.mp hb
    linarith [this.2, this.1]
  · rw [habs2] at hb
    have := abs_le.mp hb
    linarith [this.2, this.1]

/-- Claim C3 as amended: the conversion succeeds at inclination exactly pi
for every otherwise-valid input (first conjunct), and at the anchor input of
the unit test -- whose true anomaly is 170 degrees, not the 10 degrees the
claim quotes, the test having mutated its state across cases -- it returns
the USMEM elements asserted by the test at full precision, within relative
tolerance `1e-14`, the near-zero `e3` component being compared with the
additive offset of one (second conjunct). -/
theorem usmem_inclination_pi_succeeds_with_anchor :
    (∀ (k : KeplerianElements) (mu : ℝ), 0 ≤ k.eccentricity →
        (k.eccentricity = 0 → k.argumentOfPeriapsis = 0) → k.inclination = π →
        ∃ u, convertKeplerianToUnifiedStateModelWithExponentialMapElements k mu =
          Except.ok u) ∧
    (∃ u, convertKeplerianToUnifiedStateModelWithExponentialMapElements
          ⟨1.5e11, 0.1, π, 35 * π / 18, π / 12, 17 * π / 18⟩ 1.32712440018e20 =
        Except.ok u ∧
      |u.CHodograph - 29894.5892222602| ≤ 1e-14 * 29894.5892222602 ∧
      |u.Rf1Hodograph - -260.548512780222| ≤ 1e-14 * 260.548512780222 ∧
      |u.Rf2Hodograph - 2978.08312848463| ≤ 1e-14 * 2978.08312848463 ∧
      |u.e1 - -0.300705799504273| ≤ 1e-14 * 0.300705799504273 ∧
      |u.e2 - 0.953716950748227| ≤ 1e-14 * 0.953716950748227 ∧
      |u.e3 + 1 - (-6.11740603377039e-17 + 1)| ≤
        1e-14 * (-6.11740603377039e-17 + 1)) := by
  constructor
  · intro k mu he hdeg hpi
    refine ⟨kepToUsmemPayload k mu, ?_⟩
    unfold convertKeplerianToUnifiedStateModelWithExponentialMapElements
    rw [if_neg, if_neg, if_neg]
    · rintro ⟨h1, -⟩
      rw [hpi] at h1
      exact pi_ne_zero h1
    · rintro ⟨h1, h2⟩
      exact h2 (hdeg h1)
    · rintro (h1 | h1)
      · rw [hpi] at h1
        exact absurd h1 (not_lt.2 pi_pos.le)
      · rw [hpi] at h1
        exact lt_irrefl π h1
  · have hok : convertKeplerianToUnifiedStateModelWithExponentialMapElements
        ⟨1.5e11, 0.1, π, 35 * π / 18, π / 12, 17 * π / 18⟩ 1.32712440018e20 =
        Except.ok (kepToUsmemPayload
          ⟨1.5e11, 0.1, π, 35 * π / 18, π / 12, 17 * π / 18⟩ 1.32712440018e20) := by
      unfold convertKeplerianToUnifiedStateModelWithExponentialMapElements
      rw [if_neg, if_neg, if_neg]
      · rintro ⟨h1, -⟩
        exact pi_ne_zero h1
      · rintro ⟨h1, -⟩
        norm_num at h1
      · rintro (h1 | h1)
        · exact absurd h1 (not_lt.2 pi_pos.le)
        · exact lt_irrefl π h1
    refine ⟨_, hok, ?_, ?_, ?_, ?_, ?_, ?_⟩
    · -- CHodograph
      have hCv : (kepToUsmemPayload
          ⟨1.5e11, 0.1, π, 35 * π / 18, π / 12, 17 * π / 18⟩ 1.32712440018e20).CHodograph =
          Real.sqrt (1.32712440018e20 / (1.5e11 * (1 - 0.1 ^ 2))) := by
        show kepCHodograph _ _ = _
        unfold kepCHodograph
        rw [if_neg (by norm_num : ¬(0.1 : ℝ) = 1)]
      rw [hCv]
      have hC := CHodograph_anchor_bounds
      exact abs_le.mpr ⟨by linarith [hC.1], by linarith [hC.2]⟩
    · -- Rf1
      have hv : (kepToUsmemPayload
          ⟨1.5e11, 0.1, π, 35 * π / 18, π / 12, 17 * π / 18⟩ 1.32712440018e20).Rf1Hodograph =
          -(0.1 * (Real.sqrt (1.32712440018e20 / (1.5e11 * (1 - 0.1 ^ 2))) *
            Real.sin (π / 36))) := by
        show -(0.1 * kepCHodograph _ _) * Real.sin (π / 12 + 35 * π / 18) = _
        unfold kepCHodograph
        rw [if_neg (by norm_num : ¬(0.1 : ℝ) = 1), anchor_sin_angle]
        ring
      rw [hv]
      have hC := CHodograph_anchor_bounds
      have hs := sin_pi_div_36_bounds
      have hprod := prod_bounds hC.1 hC.2 hs.1 hs.2 (by norm_num) (by norm_num)
      exact abs_le.mpr ⟨by nlinarith [hprod.2], by nlinarith [hprod.1]⟩
    · -- Rf2
      have hv : (kepToUsmemPayload
          ⟨1.5e11, 0.1, π, 35 * π / 18, π / 12, 17 * π / 18⟩ 1.32712440018e20).Rf2Hodograph =
          0.1 * (Real.sqrt (1.32712440018e20 / (1.5e11 * (1 - 0.1 ^ 2))) *
            Real.cos (π / 36)) := by
        show 0.1 * kepCHodograph _ _ * Real.cos (π / 12 + 35 * π / 18) = _
        unfold kepCHodograph
        rw [if_neg (by norm_num : ¬(0.1 : ℝ) = 1), anchor_cos_angle]
        ring
      rw [hv]
      have hC := CHodograph_anchor_bounds
      have hc := cos_pi_div_36_bounds
      have hprod := prod_bounds hC.1 hC.2 hc.1 hc.2 (by norm_num) (by norm_num)
      exact abs_le.mpr ⟨by nlinarith [hprod.1], by nlinarith [hprod.2]⟩
    · -- e1
      have hv : (kepToUsmemPayload
          ⟨1.5e11, 0.1, π, 35 * π / 18, π / 12, 17 * π / 18⟩ 1.32712440018e20).e1 =
          -Real.sin (7 * π / 72) := by
        show Real.sin (π / 2) *
            Real.cos ((π / 12 - (35 * π / 18 + 17 * π / 18)) / 2) = _
        rw [Real.sin_pi_div_two, one_mul, anchor_e1_angle]
      rw [hv]
      have hs := sin_7pi_div_72_bounds
      exact abs_le.mpr ⟨by linarith [hs.2], by linarith [hs.1]⟩
    · -- e2
      have hv : (kepToUsmemPayload
          ⟨1.5e11, 0.1, π, 35 * π / 18, π / 12, 17 * π / 18⟩ 1.32712440018e20).e2 =
          Real.cos (7 * π / 72) := by
        show Real.sin (π / 2) *
            Real.sin ((π / 12 - (35 * π / 18 + 17 * π / 18)) / 2) = _
        rw [Real.sin_pi_div_two, one_mul, anchor_e2_angle]
      rw [hv]
      have hc := cos_7pi_div_72_bounds
      exact abs_le.mpr ⟨by linarith [hc.1], by linarith [hc.2]⟩
    · -- e3
      have hv : (kepToUsmemPayload
          ⟨1.5e11, 0.1, π, 35 * π / 18, π / 12, 17 * π / 18⟩ 1.32712440018e20).e3 = 0 := by
        show Real.cos (π / 2) *
            Real.sin ((π / 12 + (35 * π / 18 + 17 * π / 18)) / 2) = 0
        rw [Real.cos_pi_div_two, zero_mul]
      rw [hv]
      have habs : |(0 : ℝ) + 1 - (-6.11740603377039e-17 + 1)| =
          6.11740603377039e-17 := by
        rw [abs_of_pos (by norm_num)]
        norm_num
      rw [habs]
      norm_num

/-- Witness for the amended claim C3: its universal first conjunct applied at
the concrete anchor input. -/
theorem usmem_inclination_pi_succeeds_with_anchor_witness :
    ((0 : ℝ) ≤ (⟨1.5e11, 0.1, π, 35 * π / 18, π / 12, 17 * π / 18⟩ :
        KeplerianElements).eccentricity) ∧
      ((⟨1.5e11, 0.1, π, 35 * π / 18, π / 12, 17 * π / 18⟩ :
          KeplerianElements).eccentricity = 0 →
        (⟨1.5e11, 0.1, π, 35 * π / 18, π / 12, 17 * π / 18⟩ :
          KeplerianElements).argumentOfPeriapsis = 0) ∧
      ((⟨1.5e11, 0.1, π, 35 * π / 18, π / 12, 17 * π / 18⟩ :
          KeplerianElements).inclination = π) ∧
      ∃ u, convertKeplerianToUnifiedStateModelWithExponentialMapElements
          ⟨1.5e11, 0.1, π, 35 * π / 18, π / 12, 17 * π / 18⟩ 1.32712440018e20 =
        Except.ok u :=
  ⟨by norm_num, fun h => absurd h (by norm_num), rfl,
    usmem_inclination_pi_succeeds_with_anchor.1 _ _ (by norm_num)
      (fun h => absurd h (by norm_num)) rfl⟩
